import Mathlib

/-!
# QNX toolchain of the clang driver

A shallow embedding of `clang/lib/Driver/ToolChains/QNX.cpp` and `QNX.h`:
the linker job builder `tools::QNX::Linker::ConstructJob`, the include
resolution `toolchains::QNX::AddClangSystemIncludeArgs`, the sanitizer query
`toolchains::QNX::getSupportedSanitizers`, the constructor and the policy
defaults.  What the two files call but do not define (the option list, the
driver, the generic base toolchain, the helpers of `CommonArgs.h`) is taken
as data: every theorem quantifies over it.
-/

namespace ToolChains

/-! ## Data the two files read -/

/-- The part of `llvm::opt::ArgList` the two files query.  A field `OPT_x`
is the value of `Args.hasArg(options::OPT_x)`; `addAllArgs_L_T_s_t` is what
`Args.addAllArgs(CmdArgs, {OPT_L, OPT_T_Group, OPT_s, OPT_t})` appends. -/
structure ArgList where
  OPT_shared : Bool := false
  OPT_static : Bool := false
  OPT_pie : Bool := false
  OPT_r : Bool := false
  OPT_nostdlib : Bool := false
  OPT_nostartfiles : Bool := false
  OPT_nodefaultlibs : Bool := false
  OPT_pg : Bool := false
  OPT_static_openmp : Bool := false
  OPT_nostdinc : Bool := false
  OPT_nobuiltininc : Bool := false
  OPT_nostdlibinc : Bool := false
  addAllArgs_L_T_s_t : List String := []

/-- The values of `LTOKind` of the driver. -/
inductive LTOKind
  | LTOK_None
  | LTOK_Full
  | LTOK_Thin
  | LTOK_Unknown
  deriving DecidableEq, Repr

/-- The part of `clang::driver::Driver` the two files read. -/
structure Driver where
  SysRoot : String := ""
  ResourceDir : String := ""
  isUsingLTO : Bool := false
  getLTOMode : LTOKind := LTOKind.LTOK_None
  CCCIsCXX : Bool := false
  IsFlangMode : Bool := false

/-- The four classes of `InputInfo`: the output of a job, or one of its
inputs. -/
inductive InputInfo
  | Nothing
  | Filename (name : String)
  | InputArg (arg : String)
  | Pipe
  deriving DecidableEq, Repr

/-- `InputInfo::isFilename`. -/
def InputInfo.isFilename : InputInfo → Bool
  | InputInfo.Filename _ => true
  | _ => false

/-- `InputInfo::isNothing`. -/
def InputInfo.isNothing : InputInfo → Bool
  | InputInfo.Nothing => true
  | _ => false

/-- The sanitizer kinds `QNX.cpp` names; `Other n` stands for each of the
remaining kinds of `SanitizerKind`. -/
inductive SanitizerKind
  | Address
  | PointerCompare
  | PointerSubtract
  | Memory
  | Leak
  | Thread
  | Other (n : Nat)
  deriving DecidableEq, Repr

/-- A `SanitizerMask` is a set of sanitizer kinds; `Res |= K` adds `K`, and
the value-initialised mask `{}` is the empty set. -/
abbrev SanitizerMask := Finset SanitizerKind

/-- The members of the base classes (`ToolChain`, `Generic_ELF`) that
`QNX.cpp` calls and does not override.  Those that append to `CmdArgs` are
given by the list they append. -/
structure ToolChain where
  D : Driver := {}
  GetLinkerPath_isLLD : Bool := false
  GetFilePath : String → String := fun Name => Name
  AddFilePathLibArgs : ArgList → List String := fun _ => []
  ShouldLinkCXXStdlib : ArgList → Bool := fun _ => false
  AddCXXStdlibLibArgs : ArgList → List String := fun _ => []
  addFortranRuntimeLibraryPath : ArgList → List String := fun _ => []
  addFortranRuntimeLibs : ArgList → List String := fun _ => []
  addProfileRTLibs : ArgList → List String := fun _ => []
  getSupportedSanitizers : SanitizerMask := ∅
  getFilePaths : List String := []

/-- The free functions of `CommonArgs.h` that `ConstructJob` calls, each
given by the list it appends to `CmdArgs`.  The `Bool` of `addLTOOptions` is
`IsThinLTO`, that of `addOpenMPRuntime` is `ForceStaticHostRuntime`. -/
structure CommonArgs where
  addLTOOptions : ArgList → InputInfo → List InputInfo → Bool → List String :=
    fun _ _ _ _ => []
  addLinkerCompressDebugSectionsOption : ArgList → List String := fun _ => []
  AddLinkerInputs : List InputInfo → ArgList → List String := fun _ _ => []
  addOpenMPRuntime : ArgList → Bool → List String := fun _ _ => []

/-! ## The argument sequence -/

/-- The statement of `ConstructJob` that pushed an element of `CmdArgs`. -/
inductive Origin
  | literal
  | SysRoot
  | OutputFilename
  | GetFilePath (Name : String)
  | addAllArgs
  | AddFilePathLibArgs
  | addLTOOptions
  | addLinkerCompressDebugSectionsOption
  | AddLinkerInputs
  | addOpenMPRuntime
  | AddCXXStdlibLibArgs
  | addFortranRuntimeLibraryPath
  | addFortranRuntimeLibs
  | addProfileRTLibs
  deriving DecidableEq, Repr

/-- One element of `CmdArgs`: the string handed to the linker and the
statement that pushed it. -/
structure CmdArg where
  origin : Origin
  str : String
  deriving DecidableEq, Repr

/-- Whether `ConstructJob` composes the string itself: a string literal, or
`--sysroot=` followed by the sysroot.  The other origins hand on a string
supplied by the caller or by a collaborator. -/
def Origin.own : Origin → Bool
  | Origin.literal => true
  | Origin.SysRoot => true
  | _ => false

/-- A string literal pushed by `ConstructJob` itself. -/
def lit (s : String) : CmdArg := ⟨Origin.literal, s⟩

/-- The elements a collaborator appends, marked with the call that
appended them. -/
def pushed (o : Origin) (l : List String) : List CmdArg := l.map (CmdArg.mk o)

/-- The command line: the strings of `CmdArgs`, in order. -/
def argv (CmdArgs : List CmdArg) : List String := CmdArgs.map CmdArg.str

/-! ## QNX.h: the policy defaults -/

/-- The values of `ToolChain::CXXStdlibType`. -/
inductive CXXStdlibType
  | CST_Libcxx
  | CST_Libstdcxx
  deriving DecidableEq, Repr

/-- The values of `ToolChain::UnwindLibType`. -/
inductive UnwindLibType
  | UNW_None
  | UNW_CompilerRT
  | UNW_Libgcc
  deriving DecidableEq, Repr

/-- `QNX::IsMathErrnoDefault`. -/
def IsMathErrnoDefault : Bool := false

/-- `QNX::isPICDefault`. -/
def isPICDefault : Bool := true

/-- `QNX::isPIEDefault`. -/
def isPIEDefault (_Args : ArgList) : Bool := true

/-- `QNX::HasNativeLLVMSupport`. -/
def HasNativeLLVMSupport : Bool := true

/-- `QNX::getDefaultLinker`. -/
def getDefaultLinker : String := "ld"

/-- `QNX::GetDefaultCXXStdlibType`. -/
def GetDefaultCXXStdlibType : CXXStdlibType := CXXStdlibType.CST_Libcxx

/-- `QNX::GetDefaultUnwindLibType`. -/
def GetDefaultUnwindLibType : UnwindLibType := UnwindLibType.UNW_Libgcc

/-! ## QNX.cpp: the linker job -/

/-- `tools::QNX::Linker::ConstructJob`: the value of `CmdArgs` handed to
`C.addCommand`, or `none` when the assertion on `Output` fails.  The calls
of `ClaimAllArgs` mark options as used and push nothing; the value returned
by `addOpenMPRuntime` is dropped. -/
def ConstructJob (TC : ToolChain) (CA : CommonArgs) (Output : InputInfo)
    (Inputs : List InputInfo) (Args : ArgList) : Option (List CmdArg) :=
  let D := TC.D
  let Shared := Args.OPT_shared
  let Static := Args.OPT_static
  let CmdArgs : List CmdArg := []
  let isLLD := TC.GetLinkerPath_isLLD
  let IsPIE := !Shared && (Args.OPT_pie || isPIEDefault Args)
  let CmdArgs :=
    if D.SysRoot ≠ "" then CmdArgs ++ [⟨Origin.SysRoot, "--sysroot=" ++ D.SysRoot⟩]
    else CmdArgs
  let CmdArgs := if IsPIE then CmdArgs ++ [lit "-pie"] else CmdArgs
  let CmdArgs := CmdArgs ++ [lit "--warn-shared-textrel"]
  let CmdArgs := CmdArgs ++ [lit "-zrelro"]
  let CmdArgs := CmdArgs ++ [lit "-znow"]
  let CmdArgs := CmdArgs ++ [lit "--eh-frame-hdr"]
  let CmdArgs := CmdArgs ++ [lit "-z"]
  let CmdArgs := CmdArgs ++ [lit "stack-size=8388608"]
  let CmdArgs :=
    if Static then CmdArgs ++ [lit "-Bstatic"]
    else if Shared then CmdArgs ++ [lit "-shared"]
    else if !Args.OPT_r then
      CmdArgs ++ [lit "-dynamic-linker"] ++ [lit "/usr/lib/ldqnx-64.so.2"]
    else CmdArgs
  if !(Output.isFilename || Output.isNothing) then none
  else
    let CmdArgs :=
      match Output with
      | InputInfo.Filename name =>
        CmdArgs ++ [lit "-o"] ++ [⟨Origin.OutputFilename, name⟩]
      | _ => CmdArgs
    let CmdArgs :=
      if !(Args.OPT_nostdlib || Args.OPT_nostartfiles || Args.OPT_r) then
        let crt1 := if Args.OPT_pg then "mcrt1.o" else "crt1.o"
        let CmdArgs :=
          if !Shared then CmdArgs ++ [⟨Origin.GetFilePath crt1, TC.GetFilePath crt1⟩]
          else CmdArgs
        let CmdArgs := CmdArgs ++ [⟨Origin.GetFilePath "crti.o", TC.GetFilePath "crti.o"⟩]
        CmdArgs ++ [⟨Origin.GetFilePath "crtbegin.o", TC.GetFilePath "crtbegin.o"⟩]
      else CmdArgs
    let CmdArgs := CmdArgs ++ pushed Origin.addAllArgs Args.addAllArgs_L_T_s_t
    let CmdArgs := CmdArgs ++ pushed Origin.AddFilePathLibArgs (TC.AddFilePathLibArgs Args)
    let CmdArgs :=
      if D.isUsingLTO && isLLD then
        CmdArgs ++ pushed Origin.addLTOOptions
          (CA.addLTOOptions Args Output Inputs (D.getLTOMode == LTOKind.LTOK_Thin))
      else CmdArgs
    let CmdArgs := CmdArgs ++ pushed Origin.addLinkerCompressDebugSectionsOption
      (CA.addLinkerCompressDebugSectionsOption Args)
    let CmdArgs := CmdArgs ++ pushed Origin.AddLinkerInputs (CA.AddLinkerInputs Inputs Args)
    let CmdArgs :=
      if !(Args.OPT_nostdlib || Args.OPT_nodefaultlibs || Args.OPT_r) then
        let CmdArgs := CmdArgs ++ [lit "-lc"]
        let CmdArgs := CmdArgs ++ [lit "-lm"]
        let CmdArgs := CmdArgs ++ [lit "-lregex"]
        let CmdArgs := if Static then CmdArgs ++ [lit "-lgcc"] else CmdArgs ++ [lit "-lgcc_s"]
        let StaticOpenMP := Args.OPT_static_openmp && !Static
        let CmdArgs := CmdArgs ++ pushed Origin.addOpenMPRuntime
          (CA.addOpenMPRuntime Args StaticOpenMP)
        let CmdArgs :=
          if D.CCCIsCXX && TC.ShouldLinkCXXStdlib Args then
            let CmdArgs := CmdArgs ++ pushed Origin.AddCXXStdlibLibArgs
              (TC.AddCXXStdlibLibArgs Args)
            if Static then CmdArgs ++ [lit "-llocale"] ++ [lit "-lcatalog"] else CmdArgs
          else CmdArgs
        let CmdArgs := CmdArgs ++ [lit "-lgcc_eh"]
        if D.IsFlangMode && !(Args.OPT_nostdlib || Args.OPT_nodefaultlibs) then
          let CmdArgs := CmdArgs ++ pushed Origin.addFortranRuntimeLibraryPath
            (TC.addFortranRuntimeLibraryPath Args)
          CmdArgs ++ pushed Origin.addFortranRuntimeLibs (TC.addFortranRuntimeLibs Args)
        else CmdArgs
      else CmdArgs
    let CmdArgs :=
      if !(Args.OPT_nostdlib || Args.OPT_nostartfiles || Args.OPT_r) then
        let CmdArgs := CmdArgs ++ [⟨Origin.GetFilePath "crtend.o", TC.GetFilePath "crtend.o"⟩]
        CmdArgs ++ [⟨Origin.GetFilePath "crtn.o", TC.GetFilePath "crtn.o"⟩]
      else CmdArgs
    let CmdArgs := CmdArgs ++ pushed Origin.addProfileRTLibs (TC.addProfileRTLibs Args)
    some CmdArgs

/-- The variant of `ConstructJob` that C20 compares it with: the same
statements, except that the Fortran runtime step is guarded by
`D.IsFlangMode()` alone, without the inner test of `-nostdlib` and
`-nodefaultlibs`. -/
def ConstructJobWithoutInnerGuard (TC : ToolChain) (CA : CommonArgs) (Output : InputInfo)
    (Inputs : List InputInfo) (Args : ArgList) : Option (List CmdArg) :=
  let D := TC.D
  let Shared := Args.OPT_shared
  let Static := Args.OPT_static
  let CmdArgs : List CmdArg := []
  let isLLD := TC.GetLinkerPath_isLLD
  let IsPIE := !Shared && (Args.OPT_pie || isPIEDefault Args)
  let CmdArgs :=
    if D.SysRoot ≠ "" then CmdArgs ++ [⟨Origin.SysRoot, "--sysroot=" ++ D.SysRoot⟩]
    else CmdArgs
  let CmdArgs := if IsPIE then CmdArgs ++ [lit "-pie"] else CmdArgs
  let CmdArgs := CmdArgs ++ [lit "--warn-shared-textrel"]
  let CmdArgs := CmdArgs ++ [lit "-zrelro"]
  let CmdArgs := CmdArgs ++ [lit "-znow"]
  let CmdArgs := CmdArgs ++ [lit "--eh-frame-hdr"]
  let CmdArgs := CmdArgs ++ [lit "-z"]
  let CmdArgs := CmdArgs ++ [lit "stack-size=8388608"]
  let CmdArgs :=
    if Static then CmdArgs ++ [lit "-Bstatic"]
    else if Shared then CmdArgs ++ [lit "-shared"]
    else if !Args.OPT_r then
      CmdArgs ++ [lit "-dynamic-linker"] ++ [lit "/usr/lib/ldqnx-64.so.2"]
    else CmdArgs
  if !(Output.isFilename || Output.isNothing) then none
  else
    let CmdArgs :=
      match Output with
      | InputInfo.Filename name =>
        CmdArgs ++ [lit "-o"] ++ [⟨Origin.OutputFilename, name⟩]
      | _ => CmdArgs
    let CmdArgs :=
      if !(Args.OPT_nostdlib || Args.OPT_nostartfiles || Args.OPT_r) then
        let crt1 := if Args.OPT_pg then "mcrt1.o" else "crt1.o"
        let CmdArgs :=
          if !Shared then CmdArgs ++ [⟨Origin.GetFilePath crt1, TC.GetFilePath crt1⟩]
          else CmdArgs
        let CmdArgs := CmdArgs ++ [⟨Origin.GetFilePath "crti.o", TC.GetFilePath "crti.o"⟩]
        CmdArgs ++ [⟨Origin.GetFilePath "crtbegin.o", TC.GetFilePath "crtbegin.o"⟩]
      else CmdArgs
    let CmdArgs := CmdArgs ++ pushed Origin.addAllArgs Args.addAllArgs_L_T_s_t
    let CmdArgs := CmdArgs ++ pushed Origin.AddFilePathLibArgs (TC.AddFilePathLibArgs Args)
    let CmdArgs :=
      if D.isUsingLTO && isLLD then
        CmdArgs ++ pushed Origin.addLTOOptions
          (CA.addLTOOptions Args Output Inputs (D.getLTOMode == LTOKind.LTOK_Thin))
      else CmdArgs
    let CmdArgs := CmdArgs ++ pushed Origin.addLinkerCompressDebugSectionsOption
      (CA.addLinkerCompressDebugSectionsOption Args)
    let CmdArgs := CmdArgs ++ pushed Origin.AddLinkerInputs (CA.AddLinkerInputs Inputs Args)
    let CmdArgs :=
      if !(Args.OPT_nostdlib || Args.OPT_nodefaultlibs || Args.OPT_r) then
        let CmdArgs := CmdArgs ++ [lit "-lc"]
        let CmdArgs := CmdArgs ++ [lit "-lm"]
        let CmdArgs := CmdArgs ++ [lit "-lregex"]
        let CmdArgs := if Static then CmdArgs ++ [lit "-lgcc"] else CmdArgs ++ [lit "-lgcc_s"]
        let StaticOpenMP := Args.OPT_static_openmp && !Static
        let CmdArgs := CmdArgs ++ pushed Origin.addOpenMPRuntime
          (CA.addOpenMPRuntime Args StaticOpenMP)
        let CmdArgs :=
          if D.CCCIsCXX && TC.ShouldLinkCXXStdlib Args then
            let CmdArgs := CmdArgs ++ pushed Origin.AddCXXStdlibLibArgs
              (TC.AddCXXStdlibLibArgs Args)
            if Static then CmdArgs ++ [lit "-llocale"] ++ [lit "-lcatalog"] else CmdArgs
          else CmdArgs
        let CmdArgs := CmdArgs ++ [lit "-lgcc_eh"]
        if D.IsFlangMode then
          let CmdArgs := CmdArgs ++ pushed Origin.addFortranRuntimeLibraryPath
            (TC.addFortranRuntimeLibraryPath Args)
          CmdArgs ++ pushed Origin.addFortranRuntimeLibs (TC.addFortranRuntimeLibs Args)
        else CmdArgs
      else CmdArgs
    let CmdArgs :=
      if !(Args.OPT_nostdlib || Args.OPT_nostartfiles || Args.OPT_r) then
        let CmdArgs := CmdArgs ++ [⟨Origin.GetFilePath "crtend.o", TC.GetFilePath "crtend.o"⟩]
        CmdArgs ++ [⟨Origin.GetFilePath "crtn.o", TC.GetFilePath "crtn.o"⟩]
      else CmdArgs
    let CmdArgs := CmdArgs ++ pushed Origin.addProfileRTLibs (TC.addProfileRTLibs Args)
    some CmdArgs

/-! ## QNX.cpp: the constructor -/

/-- What `toolchains::QNX::QNX` reads of `GCCInstallation` after
`GCCInstallation.init(Triple, Args)`. -/
structure GCCInstallationDetector where
  isValid : Bool := false
  getInstallPath : String := ""

/-- Modelled from the spec: `ToolChain::concat` is not under src/; the spec
writes its result as `<sysroot>/usr/lib` and `sysroot + "/usr/include"`, the
path followed by the suffix. -/
def concat (Path A : String) : String := Path ++ A

/-- The constructor `toolchains::QNX::QNX`: the value of `getFilePaths()`
once it returns.  `TC` is the `Generic_ELF` base it starts from. -/
def QNX (TC : ToolChain) (GCCInstallation : GCCInstallationDetector) : List String :=
  let FilePaths := TC.getFilePaths
  let FilePaths := FilePaths ++ [concat TC.D.SysRoot "/usr/lib"]
  if GCCInstallation.isValid then FilePaths ++ [GCCInstallation.getInstallPath]
  else FilePaths

/-! ## QNX.cpp: the include directories -/

/-- One call that appends to `CC1Args`: `addSystemInclude` or
`addExternCSystemInclude`, with the directory it is given. -/
inductive CC1Arg
  | addSystemInclude (Path : String)
  | addExternCSystemInclude (Path : String)
  deriving DecidableEq, Repr

/-- Modelled from the spec: `llvm::sys::path::append(Dir, "include")` is not
under src/; the spec names its result the builtin directory under the
resource root, `<resource-dir>/include`. -/
def path_append (Dir Component : String) : String := Dir ++ "/" ++ Component

/-- The pieces of a character list between the occurrences of `Separator`,
empty pieces kept. -/
def splitChars (Separator : Char) : List Char → List (List Char)
  | [] => [[]]
  | c :: cs =>
    if c = Separator then [] :: splitChars Separator cs
    else
      match splitChars Separator cs with
      | [] => [[c]]
      | w :: ws => (c :: w) :: ws

/-- Modelled from the spec: `StringRef::split(dirs, ":")` is not under src/;
the spec says the override list is split on the path separator. -/
def split (S : String) (Separator : Char) : List String :=
  (splitChars Separator S.data).map String.mk

/-- `toolchains::QNX::AddClangSystemIncludeArgs`: the value of `CC1Args` when
it returns.  `C_INCLUDE_DIRS` is the configure-time macro of
`clang/Config/config.h`; `is_absolute` is `llvm::sys::path::is_absolute`. -/
def AddClangSystemIncludeArgs (D : Driver) (C_INCLUDE_DIRS : String)
    (is_absolute : String → Bool) (DriverArgs : ArgList) (CC1Args : List CC1Arg) :
    List CC1Arg :=
  if DriverArgs.OPT_nostdinc then CC1Args
  else
    let CC1Args :=
      if !DriverArgs.OPT_nobuiltininc then
        let Dir := path_append D.ResourceDir "include"
        CC1Args ++ [CC1Arg.addSystemInclude Dir]
      else CC1Args
    if DriverArgs.OPT_nostdlibinc then CC1Args
    else
      let CIncludeDirs := C_INCLUDE_DIRS
      if CIncludeDirs ≠ "" then
        let dirs := split CIncludeDirs ':'
        dirs.foldl
          (fun CC1Args dir =>
            let Pfx := if is_absolute dir then D.SysRoot else ""
            CC1Args ++ [CC1Arg.addExternCSystemInclude (Pfx ++ dir)])
          CC1Args
      else
        let CC1Args :=
          CC1Args ++ [CC1Arg.addSystemInclude (concat D.SysRoot "/usr/include/shims")]
        CC1Args ++ [CC1Arg.addSystemInclude (concat D.SysRoot "/usr/include")]

/-- `toolchains::QNX::addLibCxxIncludePaths`. -/
def addLibCxxIncludePaths (D : Driver) (CC1Args : List CC1Arg) : List CC1Arg :=
  let inclxx := concat D.SysRoot "/usr/include/c++/v1"
  CC1Args ++ [CC1Arg.addSystemInclude inclxx]

/-! ## QNX.cpp: the sanitizers -/

/-- `toolchains::QNX::getSupportedSanitizers`.  `TC.getSupportedSanitizers`
is the base class's `ToolChain::getSupportedSanitizers()`. -/
def getSupportedSanitizers (TC : ToolChain) : SanitizerMask :=
  let Res := TC.getSupportedSanitizers
  let Res := Res ∪ {SanitizerKind.Address}
  let Res := Res ∪ {SanitizerKind.PointerCompare}
  let Res := Res ∪ {SanitizerKind.PointerSubtract}
  let Res := Res ∪ {SanitizerKind.Memory}
  let Res := Res ∪ {SanitizerKind.Leak}
  let _Res := Res ∪ {SanitizerKind.Thread}
  ∅

/-! ## Sample inputs -/

/-- A sample `is_absolute`, the POSIX reading: a path is absolute when it
starts with `/`. -/
def posix_is_absolute (path : String) : Bool := path.data.head? = some '/'

/-- A sample toolchain: sysroot `/opt/qnx`, files found under its
`usr/lib`, that directory as the one library search path. -/
def sampleTC : ToolChain :=
  { D := { SysRoot := "/opt/qnx", ResourceDir := "/opt/clang/lib/clang/19" },
    GetFilePath := fun Name => "/opt/qnx/usr/lib/" ++ Name,
    AddFilePathLibArgs := fun _ => ["-L/opt/qnx/usr/lib"] }

/-- The sample toolchain under a driver in Fortran mode, with the two
libraries of the Fortran runtime. -/
def flangTC : ToolChain :=
  { sampleTC with
    D := { SysRoot := "/opt/qnx", IsFlangMode := true },
    addFortranRuntimeLibraryPath := fun _ => ["-L/opt/flang/lib"],
    addFortranRuntimeLibs := fun _ => ["-lFortranRuntime", "-lFortranDecimal"] }

/-- A sample `CommonArgs`: each filename input is passed on, nothing else
is appended. -/
def sampleCA : CommonArgs :=
  { AddLinkerInputs := fun Inputs _ =>
      Inputs.filterMap fun II =>
        match II with
        | InputInfo.Filename name => some name
        | _ => none }

/-- Sample inputs of a link job: the output `a.out`, the inputs `a.o` and
`b.o`, and six option sets. -/
def outputA : InputInfo := InputInfo.Filename "a.out"

/-- The input `a.o`. -/
def inputsA : List InputInfo := [InputInfo.Filename "a.o"]

/-- The inputs `a.o` then `b.o`. -/
def inputsAB : List InputInfo := [InputInfo.Filename "a.o", InputInfo.Filename "b.o"]

/-- No option set. -/
def optsNone : ArgList := {}

/-- The option `-pie`. -/
def optsPie : ArgList := { OPT_pie := true }

/-- The options `-static -r`. -/
def optsStaticRelocatable : ArgList := { OPT_static := true, OPT_r := true }

/-- The option `-r`. -/
def optsRelocatable : ArgList := { OPT_r := true }

/-- The option `-nostartfiles`. -/
def optsNoStartFiles : ArgList := { OPT_nostartfiles := true }

/-- The options `-nodefaultlibs -pg`. -/
def optsNoDefaultLibsProfiling : ArgList := { OPT_nodefaultlibs := true, OPT_pg := true }

/-! ## The steps of `ConstructJob`

The segments `ConstructJob` appends one after the other; `ConstructJob_eq`
below shows that their concatenation is its result. -/

/-- The `--sysroot=` argument. -/
def sysrootArgs (TC : ToolChain) : List CmdArg :=
  if TC.D.SysRoot ≠ "" then [⟨Origin.SysRoot, "--sysroot=" ++ TC.D.SysRoot⟩] else []

/-- The `-pie` argument. -/
def pieArgs (Args : ArgList) : List CmdArg :=
  if !Args.OPT_shared && (Args.OPT_pie || isPIEDefault Args) then [lit "-pie"] else []

/-- The six arguments pushed whatever the options. -/
def fixedArgs : List CmdArg :=
  [lit "--warn-shared-textrel", lit "-zrelro", lit "-znow", lit "--eh-frame-hdr",
    lit "-z", lit "stack-size=8388608"]

/-- The linking mode. -/
def modeArgs (Args : ArgList) : List CmdArg :=
  if Args.OPT_static then [lit "-Bstatic"]
  else if Args.OPT_shared then [lit "-shared"]
  else if !Args.OPT_r then [lit "-dynamic-linker", lit "/usr/lib/ldqnx-64.so.2"]
  else []

/-- The output file. -/
def outputArgs : InputInfo → List CmdArg
  | InputInfo.Filename name => [lit "-o", ⟨Origin.OutputFilename, name⟩]
  | _ => []

/-- The name of the startup object. -/
def crt1 (Args : ArgList) : String := if Args.OPT_pg then "mcrt1.o" else "crt1.o"

/-- An object file looked up with `GetFilePath`. -/
def fileArg (TC : ToolChain) (Name : String) : CmdArg :=
  ⟨Origin.GetFilePath Name, TC.GetFilePath Name⟩

/-- The start files. -/
def startFiles (TC : ToolChain) (Args : ArgList) : List CmdArg :=
  if !(Args.OPT_nostdlib || Args.OPT_nostartfiles || Args.OPT_r) then
    (if !Args.OPT_shared then [fileArg TC (crt1 Args)] else []) ++
      [fileArg TC "crti.o", fileArg TC "crtbegin.o"]
  else []

/-- The options handed on, the library search paths, the LTO and the
debug-section options. -/
def searchArgs (TC : ToolChain) (CA : CommonArgs) (Output : InputInfo)
    (Inputs : List InputInfo) (Args : ArgList) : List CmdArg :=
  pushed Origin.addAllArgs Args.addAllArgs_L_T_s_t ++
    (pushed Origin.AddFilePathLibArgs (TC.AddFilePathLibArgs Args) ++
      ((if TC.D.isUsingLTO && TC.GetLinkerPath_isLLD then
          pushed Origin.addLTOOptions
            (CA.addLTOOptions Args Output Inputs (TC.D.getLTOMode == LTOKind.LTOK_Thin))
        else []) ++
        pushed Origin.addLinkerCompressDebugSectionsOption
          (CA.addLinkerCompressDebugSectionsOption Args)))

/-- The linker inputs. -/
def inputArgs (CA : CommonArgs) (Inputs : List InputInfo) (Args : ArgList) : List CmdArg :=
  pushed Origin.AddLinkerInputs (CA.AddLinkerInputs Inputs Args)

/-- The C++ standard library arguments. -/
def cxxArgs (TC : ToolChain) (Args : ArgList) : List CmdArg :=
  if TC.D.CCCIsCXX && TC.ShouldLinkCXXStdlib Args then
    pushed Origin.AddCXXStdlibLibArgs (TC.AddCXXStdlibLibArgs Args) ++
      (if Args.OPT_static then [lit "-llocale", lit "-lcatalog"] else [])
  else []

/-- The Fortran runtime arguments. -/
def fortranArgs (TC : ToolChain) (Args : ArgList) : List CmdArg :=
  if TC.D.IsFlangMode && !(Args.OPT_nostdlib || Args.OPT_nodefaultlibs) then
    pushed Origin.addFortranRuntimeLibraryPath (TC.addFortranRuntimeLibraryPath Args) ++
      pushed Origin.addFortranRuntimeLibs (TC.addFortranRuntimeLibs Args)
  else []

/-- The default libraries. -/
def defaultLibs (TC : ToolChain) (CA : CommonArgs) (Args : ArgList) : List CmdArg :=
  if !(Args.OPT_nostdlib || Args.OPT_nodefaultlibs || Args.OPT_r) then
    [lit "-lc", lit "-lm", lit "-lregex"] ++
      ((if Args.OPT_static then [lit "-lgcc"] else [lit "-lgcc_s"]) ++
      (pushed Origin.addOpenMPRuntime
          (CA.addOpenMPRuntime Args (Args.OPT_static_openmp && !Args.OPT_static)) ++
        (cxxArgs TC Args ++ ([lit "-lgcc_eh"] ++ fortranArgs TC Args))))
  else []

/-- The end files. -/
def endFiles (TC : ToolChain) (Args : ArgList) : List CmdArg :=
  if !(Args.OPT_nostdlib || Args.OPT_nostartfiles || Args.OPT_r) then
    [fileArg TC "crtend.o", fileArg TC "crtn.o"]
  else []

/-- The profiling runtime. -/
def profileArgs (TC : ToolChain) (Args : ArgList) : List CmdArg :=
  pushed Origin.addProfileRTLibs (TC.addProfileRTLibs Args)

/-- The concatenation of the steps. -/
def steps (TC : ToolChain) (CA : CommonArgs) (Output : InputInfo)
    (Inputs : List InputInfo) (Args : ArgList) : List CmdArg :=
  sysrootArgs TC ++ (pieArgs Args ++ (fixedArgs ++ (modeArgs Args ++ (outputArgs Output ++
    (startFiles TC Args ++ (searchArgs TC CA Output Inputs Args ++ (inputArgs CA Inputs Args ++
      (defaultLibs TC CA Args ++ (endFiles TC Args ++ profileArgs TC Args)))))))))

/-- The default-library arguments `ConstructJob` composes itself. -/
def libLiterals : List CmdArg :=
  [lit "-lc", lit "-lm", lit "-lregex", lit "-lgcc", lit "-lgcc_s", lit "-lgcc_eh",
    lit "-llocale", lit "-lcatalog"]

/-- The collaborator calls made inside the default-library block. -/
def libOrigins : List Origin :=
  [Origin.addOpenMPRuntime, Origin.AddCXXStdlibLibArgs, Origin.addFortranRuntimeLibraryPath,
    Origin.addFortranRuntimeLibs]

/-! ## Lemmas -/

theorem ite_append_left {α : Type} (c : Prop) [Decidable c] (l a : List α) :
    (if c then l ++ a else l) = l ++ (if c then a else []) := by
  split <;> simp

theorem ite_append_both {α : Type} (c : Prop) [Decidable c] (l a b : List α) :
    (if c then l ++ a else l ++ b) = l ++ (if c then a else b) := by
  split <;> rfl

/-- The result of `ConstructJob` is the concatenation of its steps, when
`Output` is a file name or nothing. -/
theorem ConstructJob_eq (TC : ToolChain) (CA : CommonArgs) (Output : InputInfo)
    (Inputs : List InputInfo) (Args : ArgList)
    (hOut : (Output.isFilename || Output.isNothing) = true) :
    ConstructJob TC CA Output Inputs Args = some (steps TC CA Output Inputs Args) := by
  cases Output with
  | InputArg arg => simp [InputInfo.isFilename, InputInfo.isNothing] at hOut
  | Pipe => simp [InputInfo.isFilename, InputInfo.isNothing] at hOut
  | Nothing =>
    simp only [ConstructJob, InputInfo.isFilename, InputInfo.isNothing, Bool.or_true,
      Bool.not_true, Bool.false_eq_true, if_false, steps, sysrootArgs, pieArgs, fixedArgs,
      modeArgs, startFiles, searchArgs, inputArgs, cxxArgs, fortranArgs, defaultLibs, endFiles,
      profileArgs, fileArg, crt1, outputArgs]
    simp only [List.nil_append, List.append_assoc, ite_append_left, ite_append_both]
    simp only [List.nil_append, List.singleton_append, List.cons_append]
  | Filename name =>
    simp only [ConstructJob, InputInfo.isFilename, InputInfo.isNothing, Bool.true_or,
      Bool.not_true, Bool.false_eq_true, if_false, steps, sysrootArgs, pieArgs, fixedArgs,
      modeArgs, startFiles, searchArgs, inputArgs, cxxArgs, fortranArgs, defaultLibs, endFiles,
      profileArgs, fileArg, crt1, outputArgs]
    simp only [List.nil_append, List.append_assoc, ite_append_left, ite_append_both]
    simp only [List.nil_append, List.singleton_append, List.cons_append]

/-- The variant has the same steps as `ConstructJob`. -/
theorem ConstructJobWithoutInnerGuard_eq (TC : ToolChain) (CA : CommonArgs)
    (Output : InputInfo) (Inputs : List InputInfo) (Args : ArgList)
    (hOut : (Output.isFilename || Output.isNothing) = true) :
    ConstructJobWithoutInnerGuard TC CA Output Inputs Args =
      some (steps TC CA Output Inputs Args) := by
  cases Output with
  | InputArg arg => simp [InputInfo.isFilename, InputInfo.isNothing] at hOut
  | Pipe => simp [InputInfo.isFilename, InputInfo.isNothing] at hOut
  | Nothing =>
    cases h1 : Args.OPT_nostdlib <;> cases h2 : Args.OPT_nodefaultlibs <;>
      simp only [ConstructJobWithoutInnerGuard, InputInfo.isFilename, InputInfo.isNothing,
        Bool.or_true, Bool.not_true, Bool.false_eq_true, if_false, steps, sysrootArgs, pieArgs,
        fixedArgs, modeArgs, startFiles, searchArgs, inputArgs, cxxArgs, fortranArgs,
        defaultLibs, endFiles, profileArgs, fileArg, crt1, outputArgs, h1, h2, Bool.or_false,
        Bool.false_or, Bool.true_or, Bool.not_false, Bool.and_true] <;>
      simp only [List.nil_append, List.append_assoc, ite_append_left, ite_append_both] <;>
      simp only [List.nil_append, List.singleton_append, List.cons_append]
  | Filename name =>
    cases h1 : Args.OPT_nostdlib <;> cases h2 : Args.OPT_nodefaultlibs <;>
      simp only [ConstructJobWithoutInnerGuard, InputInfo.isFilename, InputInfo.isNothing,
        Bool.true_or, Bool.not_true, Bool.false_eq_true, if_false, steps, sysrootArgs, pieArgs,
        fixedArgs, modeArgs, startFiles, searchArgs, inputArgs, cxxArgs, fortranArgs,
        defaultLibs, endFiles, profileArgs, fileArg, crt1, outputArgs, h1, h2, Bool.or_false,
        Bool.false_or, Bool.or_true, Bool.not_false, Bool.and_true] <;>
      simp only [List.nil_append, List.append_assoc, ite_append_left, ite_append_both] <;>
      simp only [List.nil_append, List.singleton_append, List.cons_append]

/-! ### The elements of each step -/

theorem mem_pushed (o : Origin) (l : List String) (a : CmdArg) :
    a ∈ pushed o l ↔ a.origin = o ∧ a.str ∈ l := by
  cases a with
  | mk o2 s =>
    simp only [pushed, List.mem_map, CmdArg.mk.injEq]
    constructor
    · rintro ⟨t, ht, rfl, rfl⟩
      exact ⟨rfl, ht⟩
    · rintro ⟨rfl, hs⟩
      exact ⟨s, hs, rfl, rfl⟩

theorem mem_sysrootArgs (TC : ToolChain) (a : CmdArg) :
    a ∈ sysrootArgs TC ↔
      TC.D.SysRoot ≠ "" ∧ a = ⟨Origin.SysRoot, "--sysroot=" ++ TC.D.SysRoot⟩ := by
  simp [sysrootArgs]

theorem mem_pieArgs (Args : ArgList) (a : CmdArg) :
    a ∈ pieArgs Args ↔ Args.OPT_shared = false ∧ a = lit "-pie" := by
  simp [pieArgs, isPIEDefault]

theorem mem_modeArgs (Args : ArgList) (a : CmdArg) :
    a ∈ modeArgs Args ↔
      (Args.OPT_static = true ∧ a = lit "-Bstatic") ∨
      (Args.OPT_static = false ∧ Args.OPT_shared = true ∧ a = lit "-shared") ∨
      (Args.OPT_static = false ∧ Args.OPT_shared = false ∧ Args.OPT_r = false ∧
        (a = lit "-dynamic-linker" ∨ a = lit "/usr/lib/ldqnx-64.so.2")) := by
  cases h1 : Args.OPT_static <;> cases h2 : Args.OPT_shared <;> cases h3 : Args.OPT_r <;>
    simp [modeArgs, h1, h2, h3]

theorem mem_outputArgs (Output : InputInfo) (a : CmdArg) :
    a ∈ outputArgs Output ↔
      ∃ name, Output = InputInfo.Filename name ∧
        (a = lit "-o" ∨ a = ⟨Origin.OutputFilename, name⟩) := by
  cases Output <;> simp [outputArgs]

theorem mem_startFiles (TC : ToolChain) (Args : ArgList) (a : CmdArg) :
    a ∈ startFiles TC Args ↔
      (Args.OPT_nostdlib || Args.OPT_nostartfiles || Args.OPT_r) = false ∧
        ((Args.OPT_shared = false ∧ a = fileArg TC (crt1 Args)) ∨
          a = fileArg TC "crti.o" ∨ a = fileArg TC "crtbegin.o") := by
  cases h : (Args.OPT_nostdlib || Args.OPT_nostartfiles || Args.OPT_r) <;>
    simp [startFiles, h]

theorem mem_endFiles (TC : ToolChain) (Args : ArgList) (a : CmdArg) :
    a ∈ endFiles TC Args ↔
      (Args.OPT_nostdlib || Args.OPT_nostartfiles || Args.OPT_r) = false ∧
        (a = fileArg TC "crtend.o" ∨ a = fileArg TC "crtn.o") := by
  cases h : (Args.OPT_nostdlib || Args.OPT_nostartfiles || Args.OPT_r) <;>
    simp [endFiles, h]

theorem mem_searchArgs (TC : ToolChain) (CA : CommonArgs) (Output : InputInfo)
    (Inputs : List InputInfo) (Args : ArgList) (a : CmdArg) :
    a ∈ searchArgs TC CA Output Inputs Args ↔
      a ∈ pushed Origin.addAllArgs Args.addAllArgs_L_T_s_t ∨
      a ∈ pushed Origin.AddFilePathLibArgs (TC.AddFilePathLibArgs Args) ∨
      ((TC.D.isUsingLTO && TC.GetLinkerPath_isLLD) = true ∧
        a ∈ pushed Origin.addLTOOptions
          (CA.addLTOOptions Args Output Inputs (TC.D.getLTOMode == LTOKind.LTOK_Thin))) ∨
      a ∈ pushed Origin.addLinkerCompressDebugSectionsOption
        (CA.addLinkerCompressDebugSectionsOption Args) := by
  simp only [searchArgs, List.mem_append, List.mem_ite_nil_right]

theorem mem_cxxArgs (TC : ToolChain) (Args : ArgList) (a : CmdArg) :
    a ∈ cxxArgs TC Args ↔
      (TC.D.CCCIsCXX && TC.ShouldLinkCXXStdlib Args) = true ∧
        (a ∈ pushed Origin.AddCXXStdlibLibArgs (TC.AddCXXStdlibLibArgs Args) ∨
          (Args.OPT_static = true ∧ (a = lit "-llocale" ∨ a = lit "-lcatalog"))) := by
  cases h : (TC.D.CCCIsCXX && TC.ShouldLinkCXXStdlib Args) <;>
    cases h2 : Args.OPT_static <;> simp [cxxArgs, h, h2]

theorem mem_fortranArgs (TC : ToolChain) (Args : ArgList) (a : CmdArg) :
    a ∈ fortranArgs TC Args ↔
      (TC.D.IsFlangMode && !(Args.OPT_nostdlib || Args.OPT_nodefaultlibs)) = true ∧
        (a ∈ pushed Origin.addFortranRuntimeLibraryPath (TC.addFortranRuntimeLibraryPath Args) ∨
          a ∈ pushed Origin.addFortranRuntimeLibs (TC.addFortranRuntimeLibs Args)) := by
  simp only [fortranArgs, List.mem_ite_nil_right, List.mem_append]

theorem mem_defaultLibs (TC : ToolChain) (CA : CommonArgs) (Args : ArgList) (a : CmdArg) :
    a ∈ defaultLibs TC CA Args ↔
      (Args.OPT_nostdlib || Args.OPT_nodefaultlibs || Args.OPT_r) = false ∧
        (a = lit "-lc" ∨ a = lit "-lm" ∨ a = lit "-lregex" ∨
          (Args.OPT_static = true ∧ a = lit "-lgcc") ∨
          (Args.OPT_static = false ∧ a = lit "-lgcc_s") ∨
          a ∈ pushed Origin.addOpenMPRuntime
            (CA.addOpenMPRuntime Args (Args.OPT_static_openmp && !Args.OPT_static)) ∨
          a ∈ cxxArgs TC Args ∨ a = lit "-lgcc_eh" ∨ a ∈ fortranArgs TC Args) := by
  cases h : (Args.OPT_nostdlib || Args.OPT_nodefaultlibs || Args.OPT_r) <;>
    cases h2 : Args.OPT_static <;> simp [defaultLibs, h, h2]


/-- The `--sysroot=` argument differs from every string that does not
start with two dashes. -/
theorem sysroot_arg_ne (S t : String) (h : t.data.take 2 ≠ ['-', '-']) :
    "--sysroot=" ++ S ≠ t := by
  intro e
  apply h
  rw [← e]
  simp [String.data_append]

/-- The elements of the result of `ConstructJob`, step by step. -/
theorem mem_steps (TC : ToolChain) (CA : CommonArgs) (Output : InputInfo)
    (Inputs : List InputInfo) (Args : ArgList) (a : CmdArg) :
    a ∈ steps TC CA Output Inputs Args ↔
      a ∈ sysrootArgs TC ∨ a ∈ pieArgs Args ∨ a ∈ fixedArgs ∨ a ∈ modeArgs Args ∨
        a ∈ outputArgs Output ∨ a ∈ startFiles TC Args ∨
        a ∈ searchArgs TC CA Output Inputs Args ∨ a ∈ inputArgs CA Inputs Args ∨
        a ∈ defaultLibs TC CA Args ∨ a ∈ endFiles TC Args ∨ a ∈ profileArgs TC Args := by
  simp only [steps, List.mem_append]

/-- The loop of `AddClangSystemIncludeArgs` appends one entry per directory,
in order. -/
theorem foldl_push {α β : Type} (f : α → β) (l : List α) (init : List β) :
    l.foldl (fun acc x => acc ++ [f x]) init = init ++ l.map f := by
  induction l generalizing init with
  | nil => simp
  | cons x xs ih => simp [ih]

/-- The builtin directory is the resource directory followed by
`/include`. -/
theorem path_append_include (Dir : String) : path_append Dir "include" = Dir ++ "/include" := by
  unfold path_append
  rw [String.append_assoc]
  rfl

/-! ## The linker job: properties -/

/-- C1, evaluated on the code: in Fortran mode with no option set the
arguments of the Fortran runtime are pushed after `-lc`, not before it.  The
command is listed in full; `-lc` is element 17 and the three Fortran runtime
arguments are elements 22, 23 and 24, right after `-lgcc_eh`. -/
theorem fortran_runtime_after_lc :
    ∃ CmdArgs,
      ConstructJob flangTC sampleCA (InputInfo.Filename "a.out") [InputInfo.Filename "a.o"] {} =
        some CmdArgs ∧
      argv CmdArgs =
        ["--sysroot=/opt/qnx", "-pie", "--warn-shared-textrel", "-zrelro", "-znow",
          "--eh-frame-hdr", "-z", "stack-size=8388608", "-dynamic-linker",
          "/usr/lib/ldqnx-64.so.2", "-o", "a.out", "/opt/qnx/usr/lib/crt1.o",
          "/opt/qnx/usr/lib/crti.o", "/opt/qnx/usr/lib/crtbegin.o", "-L/opt/qnx/usr/lib", "a.o",
          "-lc", "-lm", "-lregex", "-lgcc_s", "-lgcc_eh", "-L/opt/flang/lib",
          "-lFortranRuntime", "-lFortranDecimal", "/opt/qnx/usr/lib/crtend.o",
          "/opt/qnx/usr/lib/crtn.o"] ∧
      CmdArgs.indexOf (lit "-lc") = 17 ∧
      CmdArgs.indexOf ⟨Origin.addFortranRuntimeLibraryPath, "-L/opt/flang/lib"⟩ = 22 ∧
      CmdArgs.indexOf ⟨Origin.addFortranRuntimeLibs, "-lFortranRuntime"⟩ = 23 ∧
      CmdArgs.indexOf ⟨Origin.addFortranRuntimeLibs, "-lFortranDecimal"⟩ = 24 :=
  ⟨_, rfl, by decide, by decide, by decide, by decide, by decide⟩

/-- C2 as stated fails: with `-shared` and `-static` both given, the command
holds `-Bstatic` and no `-shared`. -/
theorem shared_with_static_has_no_shared_flag :
    ∃ CmdArgs,
      ConstructJob sampleTC sampleCA (InputInfo.Filename "a.out") [InputInfo.Filename "a.o"]
        { OPT_shared := true, OPT_static := true } = some CmdArgs ∧
      "-shared" ∉ argv CmdArgs ∧ "-Bstatic" ∈ argv CmdArgs :=
  ⟨_, rfl, by decide, by decide⟩

/-- C2, amended: for every option set with shared set and static unset, the
command holds the shared-object mode flag `-shared`. -/
theorem shared_flag_when_not_static (TC : ToolChain) (CA : CommonArgs) (Output : InputInfo)
    (Inputs : List InputInfo) (Args : ArgList)
    (hOut : (Output.isFilename || Output.isNothing) = true)
    (hShared : Args.OPT_shared = true) (hStatic : Args.OPT_static = false) :
    ∃ CmdArgs, ConstructJob TC CA Output Inputs Args = some CmdArgs ∧
      "-shared" ∈ argv CmdArgs := by
  refine ⟨_, ConstructJob_eq TC CA Output Inputs Args hOut, ?_⟩
  have h : lit "-shared" ∈ steps TC CA Output Inputs Args := by
    simp only [mem_steps, mem_modeArgs]
    simp [hShared, hStatic]
  exact List.mem_map_of_mem CmdArg.str h

/-- The amended C2 at a concrete input: `-shared` alone, output `lib.so`. -/
theorem shared_flag_when_not_static_witness :
    ((InputInfo.Filename "lib.so").isFilename || (InputInfo.Filename "lib.so").isNothing) = true ∧
      ({ OPT_shared := true } : ArgList).OPT_shared = true ∧
      ({ OPT_shared := true } : ArgList).OPT_static = false ∧
      ∃ CmdArgs,
        ConstructJob sampleTC sampleCA (InputInfo.Filename "lib.so") [InputInfo.Filename "a.o"]
          { OPT_shared := true } = some CmdArgs ∧
        "-shared" ∈ argv CmdArgs :=
  ⟨rfl, rfl, rfl,
    shared_flag_when_not_static sampleTC sampleCA (InputInfo.Filename "lib.so")
      [InputInfo.Filename "a.o"] { OPT_shared := true } rfl rfl rfl⟩

/-- C6: for every option set with static set, no argument that `ConstructJob`
composes itself is `-dynamic-linker` or the loader path
`/usr/lib/ldqnx-64.so.2`. -/
theorem static_has_no_dynamic_linker (TC : ToolChain) (CA : CommonArgs) (Output : InputInfo)
    (Inputs : List InputInfo) (Args : ArgList)
    (hOut : (Output.isFilename || Output.isNothing) = true)
    (hStatic : Args.OPT_static = true) :
    ∃ CmdArgs, ConstructJob TC CA Output Inputs Args = some CmdArgs ∧
      ∀ a ∈ CmdArgs, a.origin.own = true →
        a.str ≠ "-dynamic-linker" ∧ a.str ≠ "/usr/lib/ldqnx-64.so.2" := by
  refine ⟨_, ConstructJob_eq TC CA Output Inputs Args hOut, ?_⟩
  rintro ⟨o, s⟩ ha hown
  simp only [mem_steps, mem_sysrootArgs, mem_pieArgs, mem_modeArgs, mem_outputArgs,
    mem_startFiles, mem_searchArgs, mem_defaultLibs, mem_cxxArgs, mem_fortranArgs, mem_endFiles,
    inputArgs, profileArgs, mem_pushed, fixedArgs, List.mem_cons, List.mem_singleton,
    List.mem_nil_iff, or_false, lit, fileArg, CmdArg.mk.injEq, hStatic, Bool.true_eq_false,
    false_and, false_or, true_and] at ha
  rcases ha with h | h | h | h | h | h | h | h | h | h | h
  · obtain ⟨_, rfl, rfl⟩ := h
    exact ⟨sysroot_arg_ne _ _ (by decide), sysroot_arg_ne _ _ (by decide)⟩
  all_goals simp_all [Origin.own]
  all_goals aesop

/-- C6 at a concrete input: `-static`, output `a.out`. -/
theorem static_has_no_dynamic_linker_witness :
    ((InputInfo.Filename "a.out").isFilename || (InputInfo.Filename "a.out").isNothing) = true ∧
      ({ OPT_static := true } : ArgList).OPT_static = true ∧
      ∃ CmdArgs,
        ConstructJob sampleTC sampleCA (InputInfo.Filename "a.out") [InputInfo.Filename "a.o"]
          { OPT_static := true } = some CmdArgs ∧
        ∀ a ∈ CmdArgs, a.origin.own = true →
          a.str ≠ "-dynamic-linker" ∧ a.str ≠ "/usr/lib/ldqnx-64.so.2" :=
  ⟨rfl, rfl,
    static_has_no_dynamic_linker sampleTC sampleCA (InputInfo.Filename "a.out")
      [InputInfo.Filename "a.o"] { OPT_static := true } rfl rfl⟩

/-- C7: for every option set in which no-standard-libs, no-default-libs or
relocatable is set, no argument that `ConstructJob` composes itself is one of
`-lc`, `-lm`, `-lregex`, `-lgcc`, `-lgcc_s`, `-lgcc_eh`, `-llocale`,
`-lcatalog`, and no argument comes from the OpenMP, the C++ standard library
or the Fortran runtime step. -/
theorem no_default_libs (TC : ToolChain) (CA : CommonArgs) (Output : InputInfo)
    (Inputs : List InputInfo) (Args : ArgList)
    (hOut : (Output.isFilename || Output.isNothing) = true)
    (hArgs : Args.OPT_nostdlib = true ∨ Args.OPT_nodefaultlibs = true ∨ Args.OPT_r = true) :
    ∃ CmdArgs, ConstructJob TC CA Output Inputs Args = some CmdArgs ∧
      ∀ a ∈ CmdArgs,
        (a.origin.own = true →
          a.str ∉ ["-lc", "-lm", "-lregex", "-lgcc", "-lgcc_s", "-lgcc_eh", "-llocale",
            "-lcatalog"]) ∧
        a.origin ≠ Origin.addOpenMPRuntime ∧ a.origin ≠ Origin.AddCXXStdlibLibArgs ∧
        a.origin ≠ Origin.addFortranRuntimeLibraryPath ∧
        a.origin ≠ Origin.addFortranRuntimeLibs := by
  refine ⟨_, ConstructJob_eq TC CA Output Inputs Args hOut, ?_⟩
  have hd : (Args.OPT_nostdlib || Args.OPT_nodefaultlibs || Args.OPT_r) = true := by
    rcases hArgs with h | h | h <;> simp [h]
  rintro ⟨o, s⟩ ha
  simp only [mem_steps, mem_sysrootArgs, mem_pieArgs, mem_modeArgs, mem_outputArgs,
    mem_startFiles, mem_searchArgs, mem_defaultLibs, mem_cxxArgs, mem_fortranArgs, mem_endFiles,
    inputArgs, profileArgs, mem_pushed, fixedArgs, List.mem_cons, List.mem_singleton,
    List.mem_nil_iff, or_false, lit, fileArg, CmdArg.mk.injEq, hd, Bool.true_eq_false,
    false_and] at ha
  rcases ha with h | h | h | h | h | h | h | h | h | h
  · obtain ⟨_, rfl, rfl⟩ := h
    simp only [List.mem_cons, List.mem_singleton, List.mem_nil_iff, or_false, not_or]
    exact ⟨fun _ => ⟨sysroot_arg_ne _ _ (by decide), sysroot_arg_ne _ _ (by decide),
      sysroot_arg_ne _ _ (by decide), sysroot_arg_ne _ _ (by decide),
      sysroot_arg_ne _ _ (by decide), sysroot_arg_ne _ _ (by decide),
      sysroot_arg_ne _ _ (by decide), sysroot_arg_ne _ _ (by decide)⟩,
      by simp, by simp, by simp, by simp⟩
  all_goals simp_all [Origin.own]
  all_goals aesop

/-- C7 at a concrete input: `-nodefaultlibs` under a driver in Fortran mode. -/
theorem no_default_libs_witness :
    ((InputInfo.Filename "a.out").isFilename || (InputInfo.Filename "a.out").isNothing) = true ∧
      (({ OPT_nodefaultlibs := true } : ArgList).OPT_nostdlib = true ∨
        ({ OPT_nodefaultlibs := true } : ArgList).OPT_nodefaultlibs = true ∨
        ({ OPT_nodefaultlibs := true } : ArgList).OPT_r = true) ∧
      ∃ CmdArgs,
        ConstructJob flangTC sampleCA (InputInfo.Filename "a.out") [InputInfo.Filename "a.o"]
          { OPT_nodefaultlibs := true } = some CmdArgs ∧
        ∀ a ∈ CmdArgs,
          (a.origin.own = true →
            a.str ∉ ["-lc", "-lm", "-lregex", "-lgcc", "-lgcc_s", "-lgcc_eh", "-llocale",
              "-lcatalog"]) ∧
          a.origin ≠ Origin.addOpenMPRuntime ∧ a.origin ≠ Origin.AddCXXStdlibLibArgs ∧
          a.origin ≠ Origin.addFortranRuntimeLibraryPath ∧
          a.origin ≠ Origin.addFortranRuntimeLibs :=
  ⟨rfl, Or.inr (Or.inl rfl),
    no_default_libs flangTC sampleCA (InputInfo.Filename "a.out") [InputInfo.Filename "a.o"]
      { OPT_nodefaultlibs := true } rfl (Or.inr (Or.inl rfl))⟩

/-- C8: for every option set with relocatable set and no output, the command
holds no file looked up with `GetFilePath` (no start file `crt1.o`, `mcrt1.o`,
`crti.o`, `crtbegin.o`, no end file `crtend.o`, `crtn.o`) and no
`-dynamic-linker` argument. -/
theorem relocatable_has_no_crt_files (TC : ToolChain) (CA : CommonArgs)
    (Inputs : List InputInfo) (Args : ArgList) (hr : Args.OPT_r = true) :
    ∃ CmdArgs, ConstructJob TC CA InputInfo.Nothing Inputs Args = some CmdArgs ∧
      ∀ a ∈ CmdArgs,
        (∀ Name, a.origin ≠ Origin.GetFilePath Name) ∧
        (a.origin.own = true → a.str ≠ "-dynamic-linker") := by
  refine ⟨_, ConstructJob_eq TC CA InputInfo.Nothing Inputs Args rfl, ?_⟩
  rintro ⟨o, s⟩ ha
  simp only [mem_steps, mem_sysrootArgs, mem_pieArgs, mem_modeArgs, mem_outputArgs,
    mem_startFiles, mem_searchArgs, mem_defaultLibs, mem_cxxArgs, mem_fortranArgs, mem_endFiles,
    inputArgs, profileArgs, mem_pushed, fixedArgs, List.mem_cons, List.mem_singleton,
    List.mem_nil_iff, or_false, lit, fileArg, CmdArg.mk.injEq, hr, Bool.or_true,
    Bool.true_eq_false, false_and, and_false, false_or, or_false, exists_false] at ha
  rcases ha with h | h | h | h | h | h | h | h
  · obtain ⟨_, rfl, rfl⟩ := h
    exact ⟨by simp, fun _ => sysroot_arg_ne _ _ (by decide)⟩
  all_goals simp_all [Origin.own]
  all_goals aesop

/-- C8 at a concrete input: `-r` with no output. -/
theorem relocatable_has_no_crt_files_witness :
    ({ OPT_r := true } : ArgList).OPT_r = true ∧
      ∃ CmdArgs,
        ConstructJob sampleTC sampleCA InputInfo.Nothing [InputInfo.Filename "a.o"]
          { OPT_r := true } = some CmdArgs ∧
        ∀ a ∈ CmdArgs,
          (∀ Name, a.origin ≠ Origin.GetFilePath Name) ∧
          (a.origin.own = true → a.str ≠ "-dynamic-linker") :=
  ⟨rfl,
    relocatable_has_no_crt_files sampleTC sampleCA [InputInfo.Filename "a.o"] { OPT_r := true }
      rfl⟩

/-- C9: for every option set with shared set, the command holds no file
looked up as `crt1.o` and none looked up as `mcrt1.o`: the startup object is
neither requested nor emitted, with or without profiling. -/
theorem shared_has_no_startup_object (TC : ToolChain) (CA : CommonArgs) (Output : InputInfo)
    (Inputs : List InputInfo) (Args : ArgList)
    (hOut : (Output.isFilename || Output.isNothing) = true)
    (hShared : Args.OPT_shared = true) :
    ∃ CmdArgs, ConstructJob TC CA Output Inputs Args = some CmdArgs ∧
      ∀ a ∈ CmdArgs,
        a.origin ≠ Origin.GetFilePath "crt1.o" ∧ a.origin ≠ Origin.GetFilePath "mcrt1.o" := by
  refine ⟨_, ConstructJob_eq TC CA Output Inputs Args hOut, ?_⟩
  rintro ⟨o, s⟩ ha
  simp only [mem_steps, mem_sysrootArgs, mem_pieArgs, mem_modeArgs, mem_outputArgs,
    mem_startFiles, mem_searchArgs, mem_defaultLibs, mem_cxxArgs, mem_fortranArgs, mem_endFiles,
    inputArgs, profileArgs, mem_pushed, fixedArgs, List.mem_cons, List.mem_singleton,
    List.mem_nil_iff, or_false, lit, fileArg, CmdArg.mk.injEq, hShared, Bool.true_eq_false,
    false_and, false_or] at ha
  rcases ha with h | h | h | h | h | h | h | h | h | h
  all_goals simp_all
  all_goals aesop

/-- C9 at a concrete input: `-shared` together with `-pg`. -/
theorem shared_has_no_startup_object_witness :
    ((InputInfo.Filename "lib.so").isFilename || (InputInfo.Filename "lib.so").isNothing) = true ∧
      ({ OPT_shared := true, OPT_pg := true } : ArgList).OPT_shared = true ∧
      ∃ CmdArgs,
        ConstructJob sampleTC sampleCA (InputInfo.Filename "lib.so") [InputInfo.Filename "a.o"]
          { OPT_shared := true, OPT_pg := true } = some CmdArgs ∧
        ∀ a ∈ CmdArgs,
          a.origin ≠ Origin.GetFilePath "crt1.o" ∧ a.origin ≠ Origin.GetFilePath "mcrt1.o" :=
  ⟨rfl, rfl,
    shared_has_no_startup_object sampleTC sampleCA (InputInfo.Filename "lib.so")
      [InputInfo.Filename "a.o"] { OPT_shared := true, OPT_pg := true } rfl rfl⟩

/-- C10: for every option set, sysroot, output and input list, the command
holds the contiguous run `--warn-shared-textrel`, `-zrelro`, `-znow`,
`--eh-frame-hdr`, `-z`, `stack-size=8388608`, in that order; the size is
8 * 1024 * 1024 bytes. -/
theorem fixed_flags_run (TC : ToolChain) (CA : CommonArgs) (Output : InputInfo)
    (Inputs : List InputInfo) (Args : ArgList)
    (hOut : (Output.isFilename || Output.isNothing) = true) :
    ∃ CmdArgs, ConstructJob TC CA Output Inputs Args = some CmdArgs ∧
      ["--warn-shared-textrel", "-zrelro", "-znow", "--eh-frame-hdr", "-z",
        "stack-size=8388608"] <:+: argv CmdArgs ∧
      "stack-size=" ++ toString (8 * 1024 * 1024) = "stack-size=8388608" := by
  refine ⟨_, ConstructJob_eq TC CA Output Inputs Args hOut, ?_, by decide⟩
  refine ⟨argv (sysrootArgs TC ++ pieArgs Args),
    argv (modeArgs Args ++ (outputArgs Output ++ (startFiles TC Args ++
      (searchArgs TC CA Output Inputs Args ++ (inputArgs CA Inputs Args ++
        (defaultLibs TC CA Args ++ (endFiles TC Args ++ profileArgs TC Args))))))), ?_⟩
  simp [steps, argv, fixedArgs, lit]

/-- C10 at a concrete input: `-static -nostdlib` with no output. -/
theorem fixed_flags_run_witness :
    (InputInfo.Nothing.isFilename || InputInfo.Nothing.isNothing) = true ∧
      ∃ CmdArgs,
        ConstructJob sampleTC sampleCA InputInfo.Nothing [InputInfo.Filename "a.o"]
          { OPT_static := true, OPT_nostdlib := true } = some CmdArgs ∧
        ["--warn-shared-textrel", "-zrelro", "-znow", "--eh-frame-hdr", "-z",
          "stack-size=8388608"] <:+: argv CmdArgs ∧
        "stack-size=" ++ toString (8 * 1024 * 1024) = "stack-size=8388608" :=
  ⟨rfl,
    fixed_flags_run sampleTC sampleCA InputInfo.Nothing [InputInfo.Filename "a.o"]
      { OPT_static := true, OPT_nostdlib := true } rfl⟩

/-! ## The sanitizers: properties -/

/-- C3, evaluated on the code: whatever the base toolchain reports,
`getSupportedSanitizers` returns the empty mask, so none of the six kinds it
adds to `Res` is in its result. -/
theorem getSupportedSanitizers_empty (TC : ToolChain) :
    getSupportedSanitizers TC = ∅ ∧
      SanitizerKind.Address ∉ getSupportedSanitizers TC ∧
      SanitizerKind.PointerCompare ∉ getSupportedSanitizers TC ∧
      SanitizerKind.PointerSubtract ∉ getSupportedSanitizers TC ∧
      SanitizerKind.Memory ∉ getSupportedSanitizers TC ∧
      SanitizerKind.Leak ∉ getSupportedSanitizers TC ∧
      SanitizerKind.Thread ∉ getSupportedSanitizers TC := by
  simp [getSupportedSanitizers]

/-! ## The include directories: properties -/

/-- C4 as stated fails: with sysroot `/opt/qnx` the override `/a:/b` yields
`/opt/qnx/a` then `/opt/qnx/b`; the absolute entries are not left
unchanged. -/
theorem override_absolute_entries_prefixed :
    AddClangSystemIncludeArgs sampleTC.D "/a:/b" posix_is_absolute {} [] =
        [CC1Arg.addSystemInclude "/opt/clang/lib/clang/19/include",
          CC1Arg.addExternCSystemInclude "/opt/qnx/a",
          CC1Arg.addExternCSystemInclude "/opt/qnx/b"] ∧
      CC1Arg.addExternCSystemInclude "/a" ∉
        AddClangSystemIncludeArgs sampleTC.D "/a:/b" posix_is_absolute {} [] ∧
      CC1Arg.addExternCSystemInclude "/b" ∉
        AddClangSystemIncludeArgs sampleTC.D "/a:/b" posix_is_absolute {} [] := by
  decide

/-- C4, amended: with a non-empty override and neither no-standard-include
nor no-standard-library-include set, what is appended is the builtin
directory (unless no-builtin-include is set) followed by one extern-C system
include per `:`-separated entry of the override, in order, where an absolute
entry is prefixed with the sysroot and a relative entry is left unchanged;
the pair `usr/include/shims`, `usr/include` is not appended. -/
theorem override_includes (D : Driver) (C_INCLUDE_DIRS : String)
    (is_absolute : String → Bool) (DriverArgs : ArgList) (CC1Args : List CC1Arg)
    (hDirs : C_INCLUDE_DIRS ≠ "") (hInc : DriverArgs.OPT_nostdinc = false)
    (hLib : DriverArgs.OPT_nostdlibinc = false) :
    AddClangSystemIncludeArgs D C_INCLUDE_DIRS is_absolute DriverArgs CC1Args =
      CC1Args ++
        (if DriverArgs.OPT_nobuiltininc then []
          else [CC1Arg.addSystemInclude (D.ResourceDir ++ "/include")]) ++
        (split C_INCLUDE_DIRS ':').map fun dir =>
          CC1Arg.addExternCSystemInclude (if is_absolute dir then D.SysRoot ++ dir else dir) := by
  have hf : ∀ dir : String,
      (if is_absolute dir = true then D.SysRoot else "") ++ dir =
        if is_absolute dir = true then D.SysRoot ++ dir else dir := by
    intro dir
    split
    · rfl
    · exact String.ext (by simp [String.data_append])
  simp only [AddClangSystemIncludeArgs, hInc, hLib, hDirs, Bool.false_eq_true, if_false,
    ne_eq, not_false_eq_true, if_true, foldl_push, path_append_include, hf]
  cases DriverArgs.OPT_nobuiltininc <;> simp

/-- The amended C4 at a concrete input: the override `usr/local/include:/a`, one
relative and one absolute entry, under the sysroot `/opt/qnx`. -/
theorem override_includes_witness :
    "usr/local/include:/a" ≠ "" ∧ ({} : ArgList).OPT_nostdinc = false ∧
      ({} : ArgList).OPT_nostdlibinc = false ∧
      AddClangSystemIncludeArgs sampleTC.D "usr/local/include:/a" posix_is_absolute {} [] =
        [] ++
          (if ({} : ArgList).OPT_nobuiltininc then []
            else [CC1Arg.addSystemInclude (sampleTC.D.ResourceDir ++ "/include")]) ++
          (split "usr/local/include:/a" ':').map fun dir =>
            CC1Arg.addExternCSystemInclude
              (if posix_is_absolute dir then sampleTC.D.SysRoot ++ dir else dir) :=
  ⟨by decide, rfl, rfl,
    override_includes sampleTC.D "usr/local/include:/a" posix_is_absolute {} [] (by decide) rfl
      rfl⟩

/-- C5 as stated fails: with no override and no option set, three
directories are appended, the builtin directory first; the list is not the
pair alone. -/
theorem default_includes_start_with_builtin :
    AddClangSystemIncludeArgs sampleTC.D "" posix_is_absolute {} [] =
        [CC1Arg.addSystemInclude "/opt/clang/lib/clang/19/include",
          CC1Arg.addSystemInclude "/opt/qnx/usr/include/shims",
          CC1Arg.addSystemInclude "/opt/qnx/usr/include"] ∧
      AddClangSystemIncludeArgs sampleTC.D "" posix_is_absolute {} [] ≠
        [CC1Arg.addSystemInclude ("/opt/qnx" ++ "/usr/include/shims"),
          CC1Arg.addSystemInclude ("/opt/qnx" ++ "/usr/include")] := by
  decide

/-- C5, amended: with no override and neither no-standard-include nor
no-standard-library-include set, what is appended is the builtin directory
(unless no-builtin-include is set) followed by exactly the sysroot's
`/usr/include/shims` and then its `/usr/include`. -/
theorem default_includes (D : Driver) (is_absolute : String → Bool) (DriverArgs : ArgList)
    (CC1Args : List CC1Arg) (hInc : DriverArgs.OPT_nostdinc = false)
    (hLib : DriverArgs.OPT_nostdlibinc = false) :
    AddClangSystemIncludeArgs D "" is_absolute DriverArgs CC1Args =
      CC1Args ++
        (if DriverArgs.OPT_nobuiltininc then []
          else [CC1Arg.addSystemInclude (D.ResourceDir ++ "/include")]) ++
        [CC1Arg.addSystemInclude (D.SysRoot ++ "/usr/include/shims"),
          CC1Arg.addSystemInclude (D.SysRoot ++ "/usr/include")] := by
  simp only [AddClangSystemIncludeArgs, hInc, hLib, Bool.false_eq_true, if_false, ne_eq,
    not_true_eq_false, path_append_include, concat]
  cases DriverArgs.OPT_nobuiltininc <;> simp

/-- The amended C5 at a concrete input: no override, `-nobuiltininc` set. -/
theorem default_includes_witness :
    ({ OPT_nobuiltininc := true } : ArgList).OPT_nostdinc = false ∧
      ({ OPT_nobuiltininc := true } : ArgList).OPT_nostdlibinc = false ∧
      AddClangSystemIncludeArgs sampleTC.D "" posix_is_absolute { OPT_nobuiltininc := true } [] =
        [] ++
          (if ({ OPT_nobuiltininc := true } : ArgList).OPT_nobuiltininc then []
            else [CC1Arg.addSystemInclude (sampleTC.D.ResourceDir ++ "/include")]) ++
          [CC1Arg.addSystemInclude (sampleTC.D.SysRoot ++ "/usr/include/shims"),
            CC1Arg.addSystemInclude (sampleTC.D.SysRoot ++ "/usr/include")] :=
  ⟨rfl, rfl,
    default_includes sampleTC.D posix_is_absolute { OPT_nobuiltininc := true } [] rfl rfl⟩

/-! ## The linker job: order and linking mode -/

/-- C11: for every option set with no-standard-libs, no-start-files,
no-default-libs and relocatable all unset, the command is `A`, then `crti.o`
and `crtbegin.o`, then `B`, then the linker inputs as `AddLinkerInputs` gives
them, then `-lc` followed by the rest `L` of the default libraries, which
holds `-lgcc_eh`, then `crtend.o` and `crtn.o`, then `P`; no linker input is
outside its block, and no default-library argument is in `A`, `B` or `P`. -/
theorem link_order (TC : ToolChain) (CA : CommonArgs) (Output : InputInfo)
    (Inputs : List InputInfo) (Args : ArgList)
    (hOut : (Output.isFilename || Output.isNothing) = true)
    (hLib : Args.OPT_nostdlib = false) (hStart : Args.OPT_nostartfiles = false)
    (hDef : Args.OPT_nodefaultlibs = false) (hr : Args.OPT_r = false) :
    ∃ CmdArgs, ConstructJob TC CA Output Inputs Args = some CmdArgs ∧
      ∃ A B L P,
        CmdArgs =
          A ++ [fileArg TC "crti.o", fileArg TC "crtbegin.o"] ++ B ++
            pushed Origin.AddLinkerInputs (CA.AddLinkerInputs Inputs Args) ++
            lit "-lc" :: L ++ [fileArg TC "crtend.o", fileArg TC "crtn.o"] ++ P ∧
        lit "-lgcc_eh" ∈ L ∧
        (∀ a ∈ A ++ B ++ L ++ P, a.origin ≠ Origin.AddLinkerInputs) ∧
        (∀ a ∈ A ++ B ++ P, a ∉ libLiterals ∧ a.origin ∉ libOrigins) := by
  refine ⟨_, ConstructJob_eq TC CA Output Inputs Args hOut, ?_⟩
  refine ⟨sysrootArgs TC ++ (pieArgs Args ++ (fixedArgs ++ (modeArgs Args ++
      (outputArgs Output ++ (if Args.OPT_shared then [] else [fileArg TC (crt1 Args)]))))),
    searchArgs TC CA Output Inputs Args,
    [lit "-lm", lit "-lregex"] ++ ((if Args.OPT_static then [lit "-lgcc"] else [lit "-lgcc_s"]) ++
      (pushed Origin.addOpenMPRuntime
          (CA.addOpenMPRuntime Args (Args.OPT_static_openmp && !Args.OPT_static)) ++
        (cxxArgs TC Args ++ ([lit "-lgcc_eh"] ++ fortranArgs TC Args)))),
    profileArgs TC Args, ?_, ?_, ?_, ?_⟩
  · cases h4 : Args.OPT_shared <;>
      simp [steps, startFiles, endFiles, defaultLibs, inputArgs, hLib, hStart, hDef, hr, h4]
  · simp
  · rintro ⟨o, s⟩ ha
    simp only [List.mem_append, mem_sysrootArgs, mem_pieArgs, mem_modeArgs, mem_outputArgs,
      mem_searchArgs, mem_cxxArgs, mem_fortranArgs, List.mem_ite_nil_left,
      List.mem_ite_nil_right, profileArgs, mem_pushed, fixedArgs, List.mem_cons,
      List.mem_singleton, List.mem_nil_iff, or_false, lit, fileArg, CmdArg.mk.injEq] at ha
    cases h5 : Args.OPT_static <;> simp only [h5] at ha <;> aesop
  · rintro ⟨o, s⟩ ha
    simp only [List.mem_append, mem_sysrootArgs, mem_pieArgs, mem_modeArgs, mem_outputArgs,
      mem_searchArgs, List.mem_ite_nil_left, List.mem_ite_nil_right, profileArgs, mem_pushed,
      fixedArgs, List.mem_cons, List.mem_singleton, List.mem_nil_iff, or_false, lit, fileArg,
      CmdArg.mk.injEq] at ha
    simp only [libLiterals, libOrigins, lit, List.mem_cons, List.mem_singleton,
      List.mem_nil_iff, or_false, CmdArg.mk.injEq, not_or]
    aesop

/-- C11 at a concrete input: no option set, inputs `a.o` then `b.o`. -/
theorem link_order_witness :
    ((outputA.isFilename || outputA.isNothing) = true) ∧
      (optsNone.OPT_nostdlib = false) ∧
      (optsNone.OPT_nostartfiles = false) ∧
      (optsNone.OPT_nodefaultlibs = false) ∧
      (optsNone.OPT_r = false) ∧
      (∃ CmdArgs, ConstructJob sampleTC sampleCA outputA inputsAB optsNone = some CmdArgs ∧
      ∃ A B L P,
        CmdArgs =
          A ++ [fileArg sampleTC "crti.o", fileArg sampleTC "crtbegin.o"] ++ B ++
            pushed Origin.AddLinkerInputs (sampleCA.AddLinkerInputs inputsAB optsNone) ++
            lit "-lc" :: L ++ [fileArg sampleTC "crtend.o", fileArg sampleTC "crtn.o"] ++ P ∧
        lit "-lgcc_eh" ∈ L ∧
        (∀ a ∈ A ++ B ++ L ++ P, a.origin ≠ Origin.AddLinkerInputs) ∧
        (∀ a ∈ A ++ B ++ P, a ∉ libLiterals ∧ a.origin ∉ libOrigins)) :=
  ⟨by decide, by decide, by decide, by decide, by decide,
    link_order sampleTC sampleCA outputA inputsAB optsNone (by decide) (by decide) (by decide) (by decide) (by decide)⟩

/-- C12: for every non-empty sysroot, output file name `O` and input list, and
every option set with static, shared, relocatable, no-standard-libs and
no-start-files unset, the command starts with `--sysroot=` and the sysroot,
holds `-pie`, holds `-dynamic-linker` directly followed by
`/usr/lib/ldqnx-64.so.2`, holds `-o` directly followed by `O`, holds
`stack-size=8388608`, and ends with the file found for `crtn.o` when the
profiling runtime step appends nothing. -/
theorem dynamic_executable_command (TC : ToolChain) (CA : CommonArgs) (O : String)
    (Inputs : List InputInfo) (Args : ArgList)
    (hS : TC.D.SysRoot ≠ "") (hStatic : Args.OPT_static = false)
    (hShared : Args.OPT_shared = false) (hr : Args.OPT_r = false)
    (hLib : Args.OPT_nostdlib = false) (hStart : Args.OPT_nostartfiles = false) :
    ∃ CmdArgs, ConstructJob TC CA (InputInfo.Filename O) Inputs Args = some CmdArgs ∧
      (argv CmdArgs).head? = some ("--sysroot=" ++ TC.D.SysRoot) ∧
      "-pie" ∈ argv CmdArgs ∧
      ["-dynamic-linker", "/usr/lib/ldqnx-64.so.2"] <:+: argv CmdArgs ∧
      ["-o", O] <:+: argv CmdArgs ∧
      "stack-size=8388608" ∈ argv CmdArgs ∧
      (TC.addProfileRTLibs Args = [] →
        (argv CmdArgs).getLast? = some (TC.GetFilePath "crtn.o")) := by
  refine ⟨_, ConstructJob_eq TC CA (InputInfo.Filename O) Inputs Args rfl, ?_⟩
  have hsteps : argv (steps TC CA (InputInfo.Filename O) Inputs Args) =
      ["--sysroot=" ++ TC.D.SysRoot, "-pie", "--warn-shared-textrel", "-zrelro", "-znow",
        "--eh-frame-hdr", "-z", "stack-size=8388608", "-dynamic-linker",
        "/usr/lib/ldqnx-64.so.2", "-o", O] ++
      (argv ([fileArg TC (crt1 Args), fileArg TC "crti.o", fileArg TC "crtbegin.o"] ++
          (searchArgs TC CA (InputInfo.Filename O) Inputs Args ++ (inputArgs CA Inputs Args ++
            defaultLibs TC CA Args))) ++
        ([TC.GetFilePath "crtend.o", TC.GetFilePath "crtn.o"] ++
          argv (profileArgs TC Args))) := by
    simp [steps, sysrootArgs, pieArgs, fixedArgs, modeArgs, outputArgs, startFiles, endFiles,
      hS, hStatic, hShared, hr, hLib, hStart, isPIEDefault, argv, lit, fileArg]
  rw [hsteps]
  refine ⟨rfl, by simp, ?_, ?_, by simp, ?_⟩
  · exact ⟨["--sysroot=" ++ TC.D.SysRoot, "-pie", "--warn-shared-textrel", "-zrelro", "-znow",
      "--eh-frame-hdr", "-z", "stack-size=8388608"], _, by simp; rfl⟩
  · exact ⟨["--sysroot=" ++ TC.D.SysRoot, "-pie", "--warn-shared-textrel", "-zrelro", "-znow",
      "--eh-frame-hdr", "-z", "stack-size=8388608", "-dynamic-linker",
      "/usr/lib/ldqnx-64.so.2"], _, by simp; rfl⟩
  · intro hP
    have hl : ∀ (l : List String) (a b : String), (l ++ [a, b]).getLast? = some b := by
      intro l a b
      rw [show l ++ [a, b] = (l ++ [a]) ++ [b] by simp]
      exact List.getLast?_concat _
    simp only [profileArgs, hP, pushed, argv, List.map_nil, List.append_nil,
      ← List.append_assoc]
    exact hl _ _ _

/-- C12 at the input of the spec: sysroot `/opt/qnx`, `-pie`, input `a.o`, output `a.out`. -/
theorem dynamic_executable_command_witness :
    (sampleTC.D.SysRoot ≠ "") ∧
      (optsPie.OPT_static = false) ∧
      (optsPie.OPT_shared = false) ∧
      (optsPie.OPT_r = false) ∧
      (optsPie.OPT_nostdlib = false) ∧
      (optsPie.OPT_nostartfiles = false) ∧
      (∃ CmdArgs, ConstructJob sampleTC sampleCA (InputInfo.Filename "a.out") inputsA optsPie = some CmdArgs ∧
      (argv CmdArgs).head? = some ("--sysroot=" ++ sampleTC.D.SysRoot) ∧
      "-pie" ∈ argv CmdArgs ∧
      ["-dynamic-linker", "/usr/lib/ldqnx-64.so.2"] <:+: argv CmdArgs ∧
      ["-o", "a.out"] <:+: argv CmdArgs ∧
      "stack-size=8388608" ∈ argv CmdArgs ∧
      (sampleTC.addProfileRTLibs optsPie = [] →
        (argv CmdArgs).getLast? = some (sampleTC.GetFilePath "crtn.o"))) :=
  ⟨by decide, by decide, by decide, by decide, by decide, by decide,
    dynamic_executable_command sampleTC sampleCA "a.out" inputsA optsPie (by decide) (by decide) (by decide) (by decide) (by decide) (by decide)⟩

/-- C13: the PIE default is true for every option set, and `ConstructJob`
pushes `-pie` if and only if shared is unset, whether or not `-pie` was
given; when pushed it comes directly after the `--sysroot=` argument (first
when the sysroot is empty) and directly before `--warn-shared-textrel`, and
a static link holds it together with `-Bstatic`. -/
theorem pie_iff_not_shared (TC : ToolChain) (CA : CommonArgs) (Output : InputInfo)
    (Inputs : List InputInfo) (Args : ArgList)
    (hOut : (Output.isFilename || Output.isNothing) = true) :
    ∃ CmdArgs, ConstructJob TC CA Output Inputs Args = some CmdArgs ∧
      isPIEDefault Args = true ∧
      (lit "-pie" ∈ CmdArgs ↔ Args.OPT_shared = false) ∧
      (Args.OPT_shared = false →
        ∃ rest,
          CmdArgs =
            (if TC.D.SysRoot ≠ "" then [⟨Origin.SysRoot, "--sysroot=" ++ TC.D.SysRoot⟩]
              else []) ++ lit "-pie" :: lit "--warn-shared-textrel" :: rest) ∧
      (Args.OPT_shared = false → Args.OPT_static = true → lit "-Bstatic" ∈ CmdArgs) := by
  refine ⟨_, ConstructJob_eq TC CA Output Inputs Args hOut, rfl, ?_, ?_, ?_⟩
  · simp [mem_steps, mem_sysrootArgs, mem_pieArgs, mem_modeArgs, mem_outputArgs,
      mem_startFiles, mem_searchArgs, mem_defaultLibs, mem_cxxArgs, mem_fortranArgs,
      mem_endFiles, inputArgs, profileArgs, mem_pushed, fixedArgs, lit, fileArg]
  · intro h
    refine ⟨[lit "-zrelro", lit "-znow", lit "--eh-frame-hdr", lit "-z",
        lit "stack-size=8388608"] ++
      (modeArgs Args ++ (outputArgs Output ++ (startFiles TC Args ++
        (searchArgs TC CA Output Inputs Args ++ (inputArgs CA Inputs Args ++
          (defaultLibs TC CA Args ++ (endFiles TC Args ++ profileArgs TC Args))))))), ?_⟩
    simp [steps, sysrootArgs, pieArgs, fixedArgs, h, isPIEDefault]
  · intro _ h
    simp [mem_steps, mem_modeArgs, h]

/-- C13 at a concrete input: `-static -r` with no output. -/
theorem pie_iff_not_shared_witness :
    ((InputInfo.Nothing.isFilename || InputInfo.Nothing.isNothing) = true) ∧
      (∃ CmdArgs, ConstructJob sampleTC sampleCA InputInfo.Nothing inputsA optsStaticRelocatable = some CmdArgs ∧
      isPIEDefault optsStaticRelocatable = true ∧
      (lit "-pie" ∈ CmdArgs ↔ optsStaticRelocatable.OPT_shared = false) ∧
      (optsStaticRelocatable.OPT_shared = false →
        ∃ rest,
          CmdArgs =
            (if sampleTC.D.SysRoot ≠ "" then [⟨Origin.SysRoot, "--sysroot=" ++ sampleTC.D.SysRoot⟩]
              else []) ++ lit "-pie" :: lit "--warn-shared-textrel" :: rest) ∧
      (optsStaticRelocatable.OPT_shared = false → optsStaticRelocatable.OPT_static = true → lit "-Bstatic" ∈ CmdArgs)) :=
  ⟨by decide,
    pie_iff_not_shared sampleTC sampleCA InputInfo.Nothing inputsA optsStaticRelocatable (by decide)⟩

/-- C17: `-Bstatic` is pushed if and only if static is set; `-shared` if and
only if static is unset and shared is set; `-dynamic-linker` and
`/usr/lib/ldqnx-64.so.2` if and only if static, shared and relocatable are
all unset, and then as an adjacent pair.  So the three are mutually
exclusive, and none is pushed when only relocatable is set. -/
theorem linking_mode (TC : ToolChain) (CA : CommonArgs) (Output : InputInfo)
    (Inputs : List InputInfo) (Args : ArgList)
    (hOut : (Output.isFilename || Output.isNothing) = true) :
    ∃ CmdArgs, ConstructJob TC CA Output Inputs Args = some CmdArgs ∧
      (lit "-Bstatic" ∈ CmdArgs ↔ Args.OPT_static = true) ∧
      (lit "-shared" ∈ CmdArgs ↔ Args.OPT_static = false ∧ Args.OPT_shared = true) ∧
      (lit "-dynamic-linker" ∈ CmdArgs ↔
        Args.OPT_static = false ∧ Args.OPT_shared = false ∧ Args.OPT_r = false) ∧
      (lit "/usr/lib/ldqnx-64.so.2" ∈ CmdArgs ↔
        Args.OPT_static = false ∧ Args.OPT_shared = false ∧ Args.OPT_r = false) ∧
      (Args.OPT_static = false → Args.OPT_shared = false → Args.OPT_r = false →
        [lit "-dynamic-linker", lit "/usr/lib/ldqnx-64.so.2"] <:+: CmdArgs) := by
  refine ⟨_, ConstructJob_eq TC CA Output Inputs Args hOut, ?_, ?_, ?_, ?_, ?_⟩
  · simp [mem_steps, mem_sysrootArgs, mem_pieArgs, mem_modeArgs, mem_outputArgs,
      mem_startFiles, mem_searchArgs, mem_defaultLibs, mem_cxxArgs, mem_fortranArgs,
      mem_endFiles, inputArgs, profileArgs, mem_pushed, fixedArgs, lit, fileArg]
  · simp [mem_steps, mem_sysrootArgs, mem_pieArgs, mem_modeArgs, mem_outputArgs,
      mem_startFiles, mem_searchArgs, mem_defaultLibs, mem_cxxArgs, mem_fortranArgs,
      mem_endFiles, inputArgs, profileArgs, mem_pushed, fixedArgs, lit, fileArg]
  · simp [mem_steps, mem_sysrootArgs, mem_pieArgs, mem_modeArgs, mem_outputArgs,
      mem_startFiles, mem_searchArgs, mem_defaultLibs, mem_cxxArgs, mem_fortranArgs,
      mem_endFiles, inputArgs, profileArgs, mem_pushed, fixedArgs, lit, fileArg]
  · simp [mem_steps, mem_sysrootArgs, mem_pieArgs, mem_modeArgs, mem_outputArgs,
      mem_startFiles, mem_searchArgs, mem_defaultLibs, mem_cxxArgs, mem_fortranArgs,
      mem_endFiles, inputArgs, profileArgs, mem_pushed, fixedArgs, lit, fileArg]
  · intro h1 h2 h3
    refine ⟨sysrootArgs TC ++ (pieArgs Args ++ fixedArgs),
      outputArgs Output ++ (startFiles TC Args ++ (searchArgs TC CA Output Inputs Args ++
        (inputArgs CA Inputs Args ++ (defaultLibs TC CA Args ++
          (endFiles TC Args ++ profileArgs TC Args))))), ?_⟩
    simp [steps, modeArgs, h1, h2, h3]

/-- C17 at a concrete input: `-r` alone. -/
theorem linking_mode_witness :
    ((outputA.isFilename || outputA.isNothing) = true) ∧
      (∃ CmdArgs, ConstructJob sampleTC sampleCA outputA inputsA optsRelocatable = some CmdArgs ∧
      (lit "-Bstatic" ∈ CmdArgs ↔ optsRelocatable.OPT_static = true) ∧
      (lit "-shared" ∈ CmdArgs ↔ optsRelocatable.OPT_static = false ∧ optsRelocatable.OPT_shared = true) ∧
      (lit "-dynamic-linker" ∈ CmdArgs ↔
        optsRelocatable.OPT_static = false ∧ optsRelocatable.OPT_shared = false ∧ optsRelocatable.OPT_r = false) ∧
      (lit "/usr/lib/ldqnx-64.so.2" ∈ CmdArgs ↔
        optsRelocatable.OPT_static = false ∧ optsRelocatable.OPT_shared = false ∧ optsRelocatable.OPT_r = false) ∧
      (optsRelocatable.OPT_static = false → optsRelocatable.OPT_shared = false → optsRelocatable.OPT_r = false →
        [lit "-dynamic-linker", lit "/usr/lib/ldqnx-64.so.2"] <:+: CmdArgs)) :=
  ⟨by decide,
    linking_mode sampleTC sampleCA outputA inputsA optsRelocatable (by decide)⟩

/-- C18: the run `-lc`, `-lm`, `-lregex`, `G` is pushed if and only if none of
no-standard-libs, no-default-libs and relocatable is set, where `G` is
`-lgcc` for a static link and `-lgcc_s` otherwise, never both.  In that case
the run is followed by the OpenMP arguments, the C++ standard library
arguments with `-llocale`, `-lcatalog` for a static link (only in C++ mode
when the C++ standard library is linked), and then `-lgcc_eh`, which occurs
once; otherwise none of these literals is pushed.  The condition does not
mention no-start-files. -/
theorem default_library_block (TC : ToolChain) (CA : CommonArgs) (Output : InputInfo)
    (Inputs : List InputInfo) (Args : ArgList)
    (hOut : (Output.isFilename || Output.isNothing) = true) :
    ∃ CmdArgs, ConstructJob TC CA Output Inputs Args = some CmdArgs ∧
      ([lit "-lc", lit "-lm", lit "-lregex",
          if Args.OPT_static then lit "-lgcc" else lit "-lgcc_s"] <:+: CmdArgs ↔
        Args.OPT_nostdlib = false ∧ Args.OPT_nodefaultlibs = false ∧ Args.OPT_r = false) ∧
      ¬(lit "-lgcc" ∈ CmdArgs ∧ lit "-lgcc_s" ∈ CmdArgs) ∧
      (Args.OPT_nostdlib = false ∧ Args.OPT_nodefaultlibs = false ∧ Args.OPT_r = false →
        CmdArgs.count (lit "-lgcc_eh") = 1 ∧
        ∃ A C,
          CmdArgs =
            A ++
              [lit "-lc", lit "-lm", lit "-lregex",
                if Args.OPT_static then lit "-lgcc" else lit "-lgcc_s"] ++
              pushed Origin.addOpenMPRuntime
                (CA.addOpenMPRuntime Args (Args.OPT_static_openmp && !Args.OPT_static)) ++
              (if TC.D.CCCIsCXX && TC.ShouldLinkCXXStdlib Args then
                pushed Origin.AddCXXStdlibLibArgs (TC.AddCXXStdlibLibArgs Args) ++
                  (if Args.OPT_static then [lit "-llocale", lit "-lcatalog"] else [])
              else []) ++
              [lit "-lgcc_eh"] ++ C ∧
          ∀ a ∈ A ++ C, a ∉ libLiterals) ∧
      (¬(Args.OPT_nostdlib = false ∧ Args.OPT_nodefaultlibs = false ∧ Args.OPT_r = false) →
        ∀ a ∈ CmdArgs, a ∉ libLiterals) := by
  refine ⟨_, ConstructJob_eq TC CA Output Inputs Args hOut, ?_⟩
  have hmem : ∀ s : String, lit s ∈ libLiterals →
      (lit s ∈ steps TC CA Output Inputs Args ↔ lit s ∈ defaultLibs TC CA Args) := by
    intro s hs
    simp only [libLiterals, List.mem_cons, List.mem_singleton, List.mem_nil_iff, or_false, lit,
      CmdArg.mk.injEq, true_and] at hs
    rcases hs with rfl | rfl | rfl | rfl | rfl | rfl | rfl | rfl <;>
      simp [mem_steps, mem_sysrootArgs, mem_pieArgs, mem_modeArgs, mem_outputArgs,
        mem_startFiles, mem_searchArgs, mem_endFiles, inputArgs, profileArgs, mem_pushed,
        fixedArgs, lit, fileArg]
  have hdec : Args.OPT_nostdlib = false ∧ Args.OPT_nodefaultlibs = false ∧ Args.OPT_r = false →
      steps TC CA Output Inputs Args =
        (sysrootArgs TC ++ (pieArgs Args ++ (fixedArgs ++ (modeArgs Args ++ (outputArgs Output ++
          (startFiles TC Args ++ (searchArgs TC CA Output Inputs Args ++
            inputArgs CA Inputs Args))))))) ++
          [lit "-lc", lit "-lm", lit "-lregex",
            if Args.OPT_static then lit "-lgcc" else lit "-lgcc_s"] ++
          pushed Origin.addOpenMPRuntime
            (CA.addOpenMPRuntime Args (Args.OPT_static_openmp && !Args.OPT_static)) ++
          (if TC.D.CCCIsCXX && TC.ShouldLinkCXXStdlib Args then
            pushed Origin.AddCXXStdlibLibArgs (TC.AddCXXStdlibLibArgs Args) ++
              (if Args.OPT_static then [lit "-llocale", lit "-lcatalog"] else [])
          else []) ++
          [lit "-lgcc_eh"] ++
          (fortranArgs TC Args ++ (endFiles TC Args ++ profileArgs TC Args)) := by
    rintro ⟨h1, h2, h3⟩
    cases h4 : Args.OPT_static <;>
      simp [steps, defaultLibs, cxxArgs, h1, h2, h3, h4]
  have hcond : ∀ s : String, lit s ∈ libLiterals → lit s ∈ steps TC CA Output Inputs Args →
      Args.OPT_nostdlib = false ∧ Args.OPT_nodefaultlibs = false ∧ Args.OPT_r = false := by
    intro s hs h
    rw [hmem s hs, mem_defaultLibs] at h
    simpa [and_assoc] using h.1
  have hAC : ∀ a ∈ (sysrootArgs TC ++ (pieArgs Args ++ (fixedArgs ++ (modeArgs Args ++
      (outputArgs Output ++ (startFiles TC Args ++ (searchArgs TC CA Output Inputs Args ++
        inputArgs CA Inputs Args))))))) ++
      (fortranArgs TC Args ++ (endFiles TC Args ++ profileArgs TC Args)), a ∉ libLiterals := by
    rintro ⟨o, s⟩ ha
    simp only [List.mem_append, mem_sysrootArgs, mem_pieArgs, mem_modeArgs, mem_outputArgs,
      mem_startFiles, mem_searchArgs, mem_fortranArgs, mem_endFiles, inputArgs, profileArgs,
      mem_pushed, fixedArgs, List.mem_cons, List.mem_singleton, List.mem_nil_iff, or_false,
      lit, fileArg, CmdArg.mk.injEq] at ha
    simp only [libLiterals, lit, List.mem_cons, List.mem_singleton, List.mem_nil_iff, or_false,
      CmdArg.mk.injEq, not_or]
    aesop
  have hex : Args.OPT_nostdlib = false ∧ Args.OPT_nodefaultlibs = false ∧ Args.OPT_r = false →
      ∃ A C,
        steps TC CA Output Inputs Args =
          A ++
            [lit "-lc", lit "-lm", lit "-lregex",
              if Args.OPT_static then lit "-lgcc" else lit "-lgcc_s"] ++
            pushed Origin.addOpenMPRuntime
              (CA.addOpenMPRuntime Args (Args.OPT_static_openmp && !Args.OPT_static)) ++
            (if TC.D.CCCIsCXX && TC.ShouldLinkCXXStdlib Args then
              pushed Origin.AddCXXStdlibLibArgs (TC.AddCXXStdlibLibArgs Args) ++
                (if Args.OPT_static then [lit "-llocale", lit "-lcatalog"] else [])
            else []) ++
            [lit "-lgcc_eh"] ++ C ∧
        ∀ a ∈ A ++ C, a ∉ libLiterals :=
    fun h => ⟨_, _, hdec h, hAC⟩
  have hg : lit "-lgcc" ∈ defaultLibs TC CA Args → Args.OPT_static = true := by
    simp [mem_defaultLibs, mem_cxxArgs, mem_fortranArgs, mem_pushed, lit]
  have hgs : lit "-lgcc_s" ∈ defaultLibs TC CA Args → Args.OPT_static = false := by
    simp [mem_defaultLibs, mem_cxxArgs, mem_fortranArgs, mem_pushed, lit]
  have h0 : ∀ l : List CmdArg, (∀ a ∈ l, a ≠ lit "-lgcc_eh") → l.count (lit "-lgcc_eh") = 0 := by
    intro l hl
    exact List.count_eq_zero.mpr fun hm => hl _ hm rfl
  have hp : ∀ (o : Origin) (l : List String), o ≠ Origin.literal →
      (pushed o l).count (lit "-lgcc_eh") = 0 := by
    intro o l ho
    apply h0
    intro a ha e
    rw [mem_pushed, e] at ha
    exact ho ha.1.symm
  refine ⟨?_, ?_, ?_, ?_⟩
  · constructor
    · intro h
      exact hcond "-lc" (by simp [libLiterals]) (h.subset (by simp))
    · intro h
      obtain ⟨A, C, hA, -⟩ := hex h
      rw [hA]
      simp only [List.append_assoc]
      exact List.infix_append' _ _ _
  · rintro ⟨h1, h2⟩
    rw [hmem _ (by simp [libLiterals])] at h1 h2
    have e1 := hg h1
    have e2 := hgs h2
    rw [e1] at e2
    exact Bool.noConfusion e2
  · intro h
    obtain ⟨A, C, hA, hAC⟩ := hex h
    refine ⟨?_, A, C, hA, hAC⟩
    rw [hA]
    have hA0 : A.count (lit "-lgcc_eh") = 0 :=
      h0 A fun a ha e => hAC a (List.mem_append_left _ ha) (by simp [e, libLiterals])
    have hC0 : C.count (lit "-lgcc_eh") = 0 :=
      h0 C fun a ha e => hAC a (List.mem_append_right _ ha) (by simp [e, libLiterals])
    simp only [List.count_append, hA0, hC0, hp _ _ (by decide : Origin.addOpenMPRuntime ≠ _)]
    have hX := hp Origin.AddCXXStdlibLibArgs (TC.AddCXXStdlibLibArgs Args) (by decide)
    cases Args.OPT_static <;> cases (TC.D.CCCIsCXX && TC.ShouldLinkCXXStdlib Args) <;>
      simp [List.count_cons, lit] <;> simpa [lit] using hX
  · intro h a ha hl
    apply h
    simp only [libLiterals, List.mem_cons, List.mem_singleton, List.mem_nil_iff,
      or_false] at hl
    rcases hl with rfl | rfl | rfl | rfl | rfl | rfl | rfl | rfl <;>
      exact hcond _ (by simp [libLiterals]) ha

/-- C18 at a concrete input: `-nostartfiles` alone. -/
theorem default_library_block_witness :
    ((outputA.isFilename || outputA.isNothing) = true) ∧
      (∃ CmdArgs, ConstructJob sampleTC sampleCA outputA inputsA optsNoStartFiles = some CmdArgs ∧
      ([lit "-lc", lit "-lm", lit "-lregex",
          if optsNoStartFiles.OPT_static then lit "-lgcc" else lit "-lgcc_s"] <:+: CmdArgs ↔
        optsNoStartFiles.OPT_nostdlib = false ∧ optsNoStartFiles.OPT_nodefaultlibs = false ∧ optsNoStartFiles.OPT_r = false) ∧
      ¬(lit "-lgcc" ∈ CmdArgs ∧ lit "-lgcc_s" ∈ CmdArgs) ∧
      (optsNoStartFiles.OPT_nostdlib = false ∧ optsNoStartFiles.OPT_nodefaultlibs = false ∧ optsNoStartFiles.OPT_r = false →
        CmdArgs.count (lit "-lgcc_eh") = 1 ∧
        ∃ A C,
          CmdArgs =
            A ++
              [lit "-lc", lit "-lm", lit "-lregex",
                if optsNoStartFiles.OPT_static then lit "-lgcc" else lit "-lgcc_s"] ++
              pushed Origin.addOpenMPRuntime
                (sampleCA.addOpenMPRuntime optsNoStartFiles (optsNoStartFiles.OPT_static_openmp && !optsNoStartFiles.OPT_static)) ++
              (if sampleTC.D.CCCIsCXX && sampleTC.ShouldLinkCXXStdlib optsNoStartFiles then
                pushed Origin.AddCXXStdlibLibArgs (sampleTC.AddCXXStdlibLibArgs optsNoStartFiles) ++
                  (if optsNoStartFiles.OPT_static then [lit "-llocale", lit "-lcatalog"] else [])
              else []) ++
              [lit "-lgcc_eh"] ++ C ∧
          ∀ a ∈ A ++ C, a ∉ libLiterals) ∧
      (¬(optsNoStartFiles.OPT_nostdlib = false ∧ optsNoStartFiles.OPT_nodefaultlibs = false ∧ optsNoStartFiles.OPT_r = false) →
        ∀ a ∈ CmdArgs, a ∉ libLiterals)) :=
  ⟨by decide,
    default_library_block sampleTC sampleCA outputA inputsA optsNoStartFiles (by decide)⟩

/-- C19: when none of no-standard-libs, no-start-files and relocatable is
set, the command holds `crti.o` directly followed by `crtbegin.o` and later
`crtend.o` directly followed by `crtn.o`; with shared unset one startup
object directly precedes `crti.o`, `mcrt1.o` under profiling and `crt1.o`
otherwise; no other file is looked up.  When one of the three is set, no file
is looked up at all.  The condition does not mention no-default-libs. -/
theorem start_and_end_files (TC : ToolChain) (CA : CommonArgs) (Output : InputInfo)
    (Inputs : List InputInfo) (Args : ArgList)
    (hOut : (Output.isFilename || Output.isNothing) = true) :
    ∃ CmdArgs, ConstructJob TC CA Output Inputs Args = some CmdArgs ∧
      (Args.OPT_nostdlib = false ∧ Args.OPT_nostartfiles = false ∧ Args.OPT_r = false →
        ∃ A B C,
          CmdArgs =
            A ++
              (if Args.OPT_shared then []
                else [fileArg TC (if Args.OPT_pg then "mcrt1.o" else "crt1.o")]) ++
              [fileArg TC "crti.o", fileArg TC "crtbegin.o"] ++ B ++
              [fileArg TC "crtend.o", fileArg TC "crtn.o"] ++ C ∧
          ∀ a ∈ A ++ B ++ C, ∀ Name, a.origin ≠ Origin.GetFilePath Name) ∧
      (¬(Args.OPT_nostdlib = false ∧ Args.OPT_nostartfiles = false ∧ Args.OPT_r = false) →
        ∀ a ∈ CmdArgs, ∀ Name, a.origin ≠ Origin.GetFilePath Name) := by
  refine ⟨_, ConstructJob_eq TC CA Output Inputs Args hOut, ?_, ?_⟩
  · rintro ⟨h1, h2, h3⟩
    refine ⟨sysrootArgs TC ++ (pieArgs Args ++ (fixedArgs ++ (modeArgs Args ++
        outputArgs Output))),
      searchArgs TC CA Output Inputs Args ++ (inputArgs CA Inputs Args ++
        defaultLibs TC CA Args), profileArgs TC Args, ?_, ?_⟩
    · cases h4 : Args.OPT_shared <;>
        simp [steps, startFiles, endFiles, crt1, h1, h2, h3, h4]
    · rintro ⟨o, s⟩ ha
      simp only [List.mem_append, mem_sysrootArgs, mem_pieArgs, mem_modeArgs, mem_outputArgs,
        mem_searchArgs, mem_defaultLibs, mem_cxxArgs, mem_fortranArgs,
        inputArgs, profileArgs, mem_pushed, fixedArgs, List.mem_cons, List.mem_singleton,
        List.mem_nil_iff, or_false, lit, CmdArg.mk.injEq] at ha
      intro Name
      aesop
  · intro h
    have hd : (Args.OPT_nostdlib || Args.OPT_nostartfiles || Args.OPT_r) = true := by
      cases h1 : Args.OPT_nostdlib <;> cases h2 : Args.OPT_nostartfiles <;>
        cases h3 : Args.OPT_r <;> simp_all
    rintro ⟨o, s⟩ ha
    simp only [mem_steps, mem_sysrootArgs, mem_pieArgs, mem_modeArgs, mem_outputArgs,
      mem_startFiles, mem_searchArgs, mem_defaultLibs, mem_cxxArgs, mem_fortranArgs,
      mem_endFiles, inputArgs, profileArgs, mem_pushed, fixedArgs, List.mem_cons,
      List.mem_singleton, List.mem_nil_iff, or_false, lit, fileArg, CmdArg.mk.injEq, hd,
      Bool.true_eq_false, false_and, false_or, or_false] at ha
    intro Name
    aesop

/-- C19 at a concrete input: `-nodefaultlibs -pg`. -/
theorem start_and_end_files_witness :
    ((outputA.isFilename || outputA.isNothing) = true) ∧
      (∃ CmdArgs, ConstructJob sampleTC sampleCA outputA inputsA optsNoDefaultLibsProfiling = some CmdArgs ∧
      (optsNoDefaultLibsProfiling.OPT_nostdlib = false ∧ optsNoDefaultLibsProfiling.OPT_nostartfiles = false ∧ optsNoDefaultLibsProfiling.OPT_r = false →
        ∃ A B C,
          CmdArgs =
            A ++
              (if optsNoDefaultLibsProfiling.OPT_shared then []
                else [fileArg sampleTC (if optsNoDefaultLibsProfiling.OPT_pg then "mcrt1.o" else "crt1.o")]) ++
              [fileArg sampleTC "crti.o", fileArg sampleTC "crtbegin.o"] ++ B ++
              [fileArg sampleTC "crtend.o", fileArg sampleTC "crtn.o"] ++ C ∧
          ∀ a ∈ A ++ B ++ C, ∀ Name, a.origin ≠ Origin.GetFilePath Name) ∧
      (¬(optsNoDefaultLibsProfiling.OPT_nostdlib = false ∧ optsNoDefaultLibsProfiling.OPT_nostartfiles = false ∧ optsNoDefaultLibsProfiling.OPT_r = false) →
        ∀ a ∈ CmdArgs, ∀ Name, a.origin ≠ Origin.GetFilePath Name)) :=
  ⟨by decide,
    start_and_end_files sampleTC sampleCA outputA inputsA optsNoDefaultLibsProfiling (by decide)⟩

/-- C20: on every input `ConstructJob` equals its variant without the inner
test of `-nostdlib` and `-nodefaultlibs`.  The Fortran runtime library path
and libraries are pushed if and only if the driver is in Fortran mode and none
of no-standard-libs, no-default-libs and relocatable is set, and then they
directly follow `-lgcc_eh`. -/
theorem fortran_inner_guard_redundant (TC : ToolChain) (CA : CommonArgs) (Output : InputInfo)
    (Inputs : List InputInfo) (Args : ArgList) :
    ConstructJob TC CA Output Inputs Args =
        ConstructJobWithoutInnerGuard TC CA Output Inputs Args ∧
      ((Output.isFilename || Output.isNothing) = true →
      ∃ CmdArgs, ConstructJob TC CA Output Inputs Args = some CmdArgs ∧
        (TC.D.IsFlangMode = true ∧ Args.OPT_nostdlib = false ∧ Args.OPT_nodefaultlibs = false ∧
            Args.OPT_r = false →
          ∃ A C,
            CmdArgs =
              A ++ [lit "-lgcc_eh"] ++
                pushed Origin.addFortranRuntimeLibraryPath
                  (TC.addFortranRuntimeLibraryPath Args) ++
                pushed Origin.addFortranRuntimeLibs (TC.addFortranRuntimeLibs Args) ++ C ∧
            ∀ a ∈ A ++ C,
              a.origin ≠ Origin.addFortranRuntimeLibraryPath ∧
                a.origin ≠ Origin.addFortranRuntimeLibs) ∧
        (¬(TC.D.IsFlangMode = true ∧ Args.OPT_nostdlib = false ∧
              Args.OPT_nodefaultlibs = false ∧ Args.OPT_r = false) →
          ∀ a ∈ CmdArgs,
            a.origin ≠ Origin.addFortranRuntimeLibraryPath ∧
              a.origin ≠ Origin.addFortranRuntimeLibs)) := by
  refine ⟨?_, fun hOut => ⟨_, ConstructJob_eq TC CA Output Inputs Args hOut, ?_, ?_⟩⟩
  · cases Output with
    | InputArg arg =>
      simp only [ConstructJob, ConstructJobWithoutInnerGuard, InputInfo.isFilename,
        InputInfo.isNothing, Bool.or_self, Bool.not_false, if_true]
    | Pipe =>
      simp only [ConstructJob, ConstructJobWithoutInnerGuard, InputInfo.isFilename,
        InputInfo.isNothing, Bool.or_self, Bool.not_false, if_true]
    | Nothing =>
      rw [ConstructJob_eq TC CA InputInfo.Nothing Inputs Args rfl,
        ConstructJobWithoutInnerGuard_eq TC CA InputInfo.Nothing Inputs Args rfl]
    | Filename name =>
      rw [ConstructJob_eq TC CA (InputInfo.Filename name) Inputs Args rfl,
        ConstructJobWithoutInnerGuard_eq TC CA (InputInfo.Filename name) Inputs Args rfl]
  · rintro ⟨h1, h2, h3, h4⟩
    refine ⟨sysrootArgs TC ++ (pieArgs Args ++ (fixedArgs ++ (modeArgs Args ++
        (outputArgs Output ++ (startFiles TC Args ++ (searchArgs TC CA Output Inputs Args ++
          (inputArgs CA Inputs Args ++ ([lit "-lc", lit "-lm", lit "-lregex"] ++
            ((if Args.OPT_static then [lit "-lgcc"] else [lit "-lgcc_s"]) ++
              (pushed Origin.addOpenMPRuntime
                  (CA.addOpenMPRuntime Args (Args.OPT_static_openmp && !Args.OPT_static)) ++
                cxxArgs TC Args)))))))))),
      endFiles TC Args ++ profileArgs TC Args, ?_, ?_⟩
    · simp [steps, defaultLibs, fortranArgs, h1, h2, h3, h4]
    · rintro ⟨o, s⟩ ha
      simp only [List.mem_append, mem_sysrootArgs, mem_pieArgs, mem_modeArgs, mem_outputArgs,
        mem_startFiles, mem_searchArgs, mem_cxxArgs, mem_endFiles, List.mem_ite_nil_left,
        List.mem_ite_nil_right, inputArgs, profileArgs, mem_pushed, fixedArgs, List.mem_cons,
        List.mem_singleton, List.mem_nil_iff, or_false, lit, fileArg, CmdArg.mk.injEq] at ha
      cases h5 : Args.OPT_static <;> simp only [h5] at ha <;> aesop
  · intro h
    rintro ⟨o, s⟩ ha
    simp only [mem_steps, mem_sysrootArgs, mem_pieArgs, mem_modeArgs, mem_outputArgs,
      mem_startFiles, mem_searchArgs, mem_defaultLibs, mem_cxxArgs, mem_fortranArgs,
      mem_endFiles, inputArgs, profileArgs, mem_pushed, fixedArgs, List.mem_cons,
      List.mem_singleton, List.mem_nil_iff, or_false, lit, fileArg, CmdArg.mk.injEq] at ha
    have hn : ¬((Args.OPT_nostdlib || Args.OPT_nodefaultlibs || Args.OPT_r) = false ∧
        (TC.D.IsFlangMode && !(Args.OPT_nostdlib || Args.OPT_nodefaultlibs)) = true) := by
      intro hc
      apply h
      cases h1 : Args.OPT_nostdlib <;> cases h2 : Args.OPT_nodefaultlibs <;>
        cases h3 : Args.OPT_r <;> cases h4 : TC.D.IsFlangMode <;> simp_all
    aesop

/-- C20 at a concrete input: the driver in Fortran mode, no option set; the
Fortran runtime arguments follow `-lgcc_eh`. -/
theorem fortran_inner_guard_redundant_witness :
    ConstructJob flangTC sampleCA outputA inputsA optsNone =
        ConstructJobWithoutInnerGuard flangTC sampleCA outputA inputsA optsNone ∧
      ConstructJob flangTC sampleCA outputA inputsA optsNone =
        some (steps flangTC sampleCA outputA inputsA optsNone) ∧
      [lit "-lgcc_eh", ⟨Origin.addFortranRuntimeLibraryPath, "-L/opt/flang/lib"⟩,
          ⟨Origin.addFortranRuntimeLibs, "-lFortranRuntime"⟩,
          ⟨Origin.addFortranRuntimeLibs, "-lFortranDecimal"⟩] <:+:
        steps flangTC sampleCA outputA inputsA optsNone :=
  ⟨(fortran_inner_guard_redundant flangTC sampleCA outputA inputsA optsNone).1, rfl,
    by decide⟩

/-! ## The include directories: the guards -/

/-- C14: with no-standard-include set nothing is appended.  Otherwise the
builtin directory, the resource directory followed by `/include`, is appended
first if and only if no-builtin-include is unset; with
no-standard-library-include set nothing follows it, and with it unset what
follows is the override entries or the default pair. -/
theorem include_guards (D : Driver) (C_INCLUDE_DIRS : String) (is_absolute : String → Bool)
    (DriverArgs : ArgList) (CC1Args : List CC1Arg) :
    (DriverArgs.OPT_nostdinc = true →
      AddClangSystemIncludeArgs D C_INCLUDE_DIRS is_absolute DriverArgs CC1Args = CC1Args) ∧
    (DriverArgs.OPT_nostdinc = false →
      ∃ rest,
        AddClangSystemIncludeArgs D C_INCLUDE_DIRS is_absolute DriverArgs CC1Args =
          CC1Args ++
            (if DriverArgs.OPT_nobuiltininc then []
              else [CC1Arg.addSystemInclude (D.ResourceDir ++ "/include")]) ++ rest ∧
        (DriverArgs.OPT_nostdlibinc = true → rest = []) ∧
        (DriverArgs.OPT_nostdlibinc = false →
          rest =
            if C_INCLUDE_DIRS ≠ "" then
              (split C_INCLUDE_DIRS ':').map fun dir =>
                CC1Arg.addExternCSystemInclude
                  ((if is_absolute dir then D.SysRoot else "") ++ dir)
            else
              [CC1Arg.addSystemInclude (D.SysRoot ++ "/usr/include/shims"),
                CC1Arg.addSystemInclude (D.SysRoot ++ "/usr/include")])) := by
  constructor
  · intro h
    simp [AddClangSystemIncludeArgs, h]
  · intro h
    cases h2 : DriverArgs.OPT_nostdlibinc
    · refine ⟨_, ?_, by simp, fun _ => rfl⟩
      simp only [AddClangSystemIncludeArgs, h, h2, Bool.false_eq_true, if_false, foldl_push,
        path_append_include, concat]
      cases DriverArgs.OPT_nobuiltininc <;> split <;> simp
    · refine ⟨[], ?_, fun _ => rfl, by simp⟩
      simp only [AddClangSystemIncludeArgs, h, h2, Bool.false_eq_true, if_false, if_true,
        path_append_include]
      cases DriverArgs.OPT_nobuiltininc <;> simp

/-! ## The policy object: properties -/

/-- C15: after the constructor the library search list is the inherited list,
then the sysroot followed by `/usr/lib`, then the install path of the GCC
installation when it is valid and nothing otherwise. -/
theorem file_paths_after_constructor (TC : ToolChain) (GCCInstallation : GCCInstallationDetector) :
    QNX TC GCCInstallation =
      TC.getFilePaths ++ [TC.D.SysRoot ++ "/usr/lib"] ++
        (if GCCInstallation.isValid then [GCCInstallation.getInstallPath] else []) := by
  simp only [QNX, concat]
  split <;> simp

/-- C16 as stated fails: the default unwind library kind is `UNW_Libgcc`, not
the compiler-rt kind. -/
theorem default_unwind_lib_is_not_compiler_rt :
    GetDefaultUnwindLibType = UnwindLibType.UNW_Libgcc ∧
      GetDefaultUnwindLibType ≠ UnwindLibType.UNW_CompilerRT := by
  decide

/-- C16, amended: the policy defaults are constant: math-errno false, PIC
true, PIE true for every option set, linker `ld`, C++ standard library
`CST_Libcxx`, unwind library `UNW_Libgcc`. -/
theorem policy_defaults (Args : ArgList) :
    IsMathErrnoDefault = false ∧ isPICDefault = true ∧ isPIEDefault Args = true ∧
      getDefaultLinker = "ld" ∧ GetDefaultCXXStdlibType = CXXStdlibType.CST_Libcxx ∧
      GetDefaultUnwindLibType = UnwindLibType.UNW_Libgcc :=
  ⟨rfl, rfl, rfl, rfl, rfl, rfl⟩

end ToolChains
